import Mathlib

/-!
Verification of the Latrina monitoring front-end (React/TypeScript).

This file shallowly embeds the pure decision logic of the repository's
components and proves the frozen claims about them:

* `RouterTable` — the route table of `router/Router` (the unnamed route file).
* `RoleGuard`   — `src/routes/RoleProtectedRoute.tsx`.
* `Reportes`    — the chart aggregation and filtering of the reports view.
* `ProgSalida`  — `src/views/programar-salida/ProgramarSalida.tsx`.
* `Dispositivos`— `src/views/dispositivos/Dispositivos.tsx`.
* `Monitoreo`   — the monitoring panel (`PanelMonitoreo`).
* `Observacion` — `src/views/conductores/EntregaObservacion.tsx`.

Event handlers are embedded as pure functions from the component state and an
environment (HTTP responses, `window.confirm` answers, clock-derived dates) to
the new component state together with the list of HTTP requests the handler
issues, in order.  JavaScript string comparison (`<`, `>=` on strings) is
embedded as lexicographic comparison of code points (`jsSlt`/`jsSle` below),
which agrees with the ECMAScript code-unit order on all the strings these
components compare (dates, ids, plain-Latin names).
-/

/-- JavaScript strict lexicographic order on strings, as a comparison of the
underlying character sequences (code-point order). -/
def charListLt : List Char → List Char → Bool
  | [], [] => false
  | [], _ :: _ => true
  | _ :: _, [] => false
  | a :: as, b :: bs =>
    if a.toNat < b.toNat then true
    else if b.toNat < a.toNat then false
    else charListLt as bs

/-- JavaScript non-strict lexicographic order on character sequences. -/
def charListLe : List Char → List Char → Bool
  | [], _ => true
  | _ :: _, [] => false
  | a :: as, b :: bs =>
    if a.toNat < b.toNat then true
    else if b.toNat < a.toNat then false
    else charListLe as bs

/-- The JavaScript `a < b` comparison on strings. -/
def jsSlt (a b : String) : Bool := charListLt a.data b.data

/-- The JavaScript `a <= b` comparison on strings. -/
def jsSle (a b : String) : Bool := charListLe a.data b.data

theorem charListLe_eq_not_lt (as bs : List Char) :
    charListLe as bs = !charListLt bs as := by
  induction as generalizing bs with
  | nil => cases bs <;> simp [charListLe, charListLt]
  | cons a as ih =>
    cases bs with
    | nil => simp [charListLe, charListLt]
    | cons b bs =>
      simp only [charListLe, charListLt]
      rcases Nat.lt_trichotomy a.toNat b.toNat with h | h | h
      · simp [h, Nat.not_lt.mpr (Nat.le_of_lt h)]
      · simp [h, Nat.lt_irrefl, ih]
      · simp [h, Nat.not_lt.mpr (Nat.le_of_lt h)]

theorem charListLe_total (as bs : List Char) :
    (charListLe as bs || charListLe bs as) = true := by
  induction as generalizing bs with
  | nil => simp [charListLe]
  | cons a as ih =>
    cases bs with
    | nil => simp [charListLe]
    | cons b bs =>
      simp only [charListLe]
      rcases Nat.lt_trichotomy a.toNat b.toNat with h | h | h
      · simp [h]
      · simp [h, Nat.lt_irrefl, ih]
      · simp [h]

theorem charListLe_trans (as bs cs : List Char)
    (h₁ : charListLe as bs = true) (h₂ : charListLe bs cs = true) :
    charListLe as cs = true := by
  induction as generalizing bs cs with
  | nil => simp [charListLe]
  | cons a as ih =>
    cases bs with
    | nil => simp [charListLe] at h₁
    | cons b bs =>
      cases cs with
      | nil => simp [charListLe] at h₂
      | cons c cs =>
        simp only [charListLe] at h₁ h₂ ⊢
        by_cases hac : a.toNat < c.toNat
        · simp [hac]
        · by_cases hab : a.toNat < b.toNat
          · by_cases hbc : b.toNat < c.toNat
            · omega
            · by_cases hcb : c.toNat < b.toNat
              · simp [if_neg hbc, if_pos hcb] at h₂
              · omega
          · by_cases hba : b.toNat < a.toNat
            · simp [if_neg hab, if_pos hba] at h₁
            · simp only [if_neg hab, if_neg hba] at h₁
              by_cases hbc : b.toNat < c.toNat
              · omega
              · by_cases hcb : c.toNat < b.toNat
                · simp [if_neg hbc, if_pos hcb] at h₂
                · simp only [if_neg hbc, if_neg hcb] at h₂
                  have hca : ¬ c.toNat < a.toNat := by omega
                  simp only [if_neg hac, if_neg hca]
                  exact ih bs cs h₁ h₂

theorem jsSle_total (a b : String) : (jsSle a b || jsSle b a) = true :=
  charListLe_total a.data b.data

theorem jsSle_trans (a b c : String)
    (h₁ : jsSle a b = true) (h₂ : jsSle b c = true) : jsSle a c = true :=
  charListLe_trans a.data b.data c.data h₁ h₂

theorem jsSle_eq_not_slt (a b : String) : jsSle a b = !jsSlt b a :=
  charListLe_eq_not_lt a.data b.data

/-- Whitespace test used by the embedding of `String.prototype.trim`. -/
def isJsWs (c : Char) : Bool :=
  c = ' ' || c = '\t' || c = '\n' || c = '\r'

/-- The JavaScript `s.trim()` (restricted to the ASCII whitespace the
repository's inputs can contain). -/
def jsTrim (s : String) : String :=
  String.mk (((s.data.dropWhile isJsWs).reverse.dropWhile isJsWs).reverse)

/-- The `sanitize` helper that several components define:
`(value ?? '').trim()` on an optional string. -/
def sanitize (value : Option String) : String := jsTrim (value.getD "")

/-- JavaScript truthiness of an optional string (`null`, `undefined` and `''`
are falsy). -/
def optStrTruthy : Option String → Bool
  | none => false
  | some s => !(s = "")

/-- The JavaScript `Math.ceil(a / b)` on integer operands with a positive
divisor, computed exactly. -/
def mathCeilDiv (a b : Int) : Int := -(Int.ediv (-a) b)

namespace RouterTable

/-- Shape of a route's `element` in the route file: either a `Loadable(lazy(...))`
page, an eagerly imported component (`Home` is imported with a plain `import`),
a `<Navigate to=.../>`, or a `withRoleGuard` wrapper around another element. -/
inductive RouteElement where
  | loadableLazy (name : String)
  | eager (name : String)
  | navigateTo (target : String)
  | guarded (roles : List String) (inner : RouteElement)
  deriving DecidableEq, Repr

/-- The `withRoleGuard` helper of the route file: it wraps an element in
`RoleProtectedRoute` with the given `allowedRoles`. -/
def withRoleGuard (element : RouteElement) (roles : List String) : RouteElement :=
  RouteElement.guarded roles element

/-- One entry of a `children` array of the `Router` table. -/
structure ChildRoute where
  path : String
  element : RouteElement
  deriving DecidableEq, Repr

/-- One top-level entry of the `Router` array (a layout with children). -/
structure TopRoute where
  path : String
  element : RouteElement
  children : List ChildRoute
  deriving DecidableEq, Repr

/-- The `Router` array of the route file, transcribed entry by entry. -/
def Router : List TopRoute :=
  [ { path := "/", element := .loadableLazy "BlankLayout",
      children :=
        [ ⟨"/", .loadableLazy "Welcome"⟩,
          ⟨"/auth/login", .loadableLazy "Login"⟩,
          ⟨"/auth/register", .loadableLazy "Register"⟩,
          ⟨"404", .loadableLazy "Error"⟩,
          ⟨"/auth/404", .loadableLazy "Error"⟩ ] },
    { path := "/", element := .loadableLazy "FullLayout",
      children :=
        [ ⟨"/inicio", .eager "Home"⟩,
          ⟨"/ui/typography", .loadableLazy "Typography"⟩,
          ⟨"/ui/table", .loadableLazy "Table"⟩,
          ⟨"/ui/form", .loadableLazy "Form"⟩,
          ⟨"/ui/alert", .loadableLazy "Alert"⟩,
          ⟨"/ui/buttons", .loadableLazy "Buttons"⟩,
          ⟨"/icons/solar", .loadableLazy "Solar"⟩,
          ⟨"/menu/vehiculos", withRoleGuard (.loadableLazy "Vehiculos") ["administrador"]⟩,
          ⟨"/menu/vehiculos/nuevo", withRoleGuard (.loadableLazy "VehiculoForm") ["administrador"]⟩,
          ⟨"/menu/dispositivos", withRoleGuard (.loadableLazy "Dispositivos") ["administrador"]⟩,
          ⟨"/menu/conductores", withRoleGuard (.loadableLazy "Conductores") ["administrador"]⟩,
          ⟨"/menu/entregas", withRoleGuard (.loadableLazy "Entregas") ["administrador", "conductor"]⟩,
          ⟨"/menu/entregas/:id/salidas", withRoleGuard (.loadableLazy "ProgramacionSalidas") ["administrador", "conductor"]⟩,
          ⟨"/menu/entregas/:id", withRoleGuard (.loadableLazy "EntregaDetalle") ["administrador", "conductor"]⟩,
          ⟨"/menu/entregas/:id/observacion/:productoId", withRoleGuard (.loadableLazy "EntregaObservacion") ["administrador", "conductor"]⟩,
          ⟨"/menu/programar-salida", withRoleGuard (.loadableLazy "ProgramarSalida") ["administrador"]⟩,
          ⟨"/menu/panel-monitoreo", withRoleGuard (.loadableLazy "PanelMonitoreo") ["administrador"]⟩,
          ⟨"/menu/panel-monitoreo/salidas/:id", withRoleGuard (.loadableLazy "SalidaDetalle") ["administrador"]⟩,
          ⟨"/menu/panel-monitoreo/salidas/:id/recorrido", withRoleGuard (.loadableLazy "RecorridoMapa") ["administrador"]⟩,
          ⟨"/menu/panel-monitoreo/salidas/:id/detalle/:notaId", withRoleGuard (.loadableLazy "NotaSalidaDetalle") ["administrador"]⟩,
          ⟨"/menu/perfil", .loadableLazy "Perfil"⟩,
          ⟨"/menu/reportes", withRoleGuard (.loadableLazy "Reportes") ["administrador"]⟩,
          ⟨"/sample-page", .loadableLazy "SamplePage"⟩,
          ⟨"*", .navigateTo "/auth/404"⟩ ] } ]

/-- All child route objects of the `Router` array, in order. -/
def allChildRoutes : List ChildRoute := (Router.map TopRoute.children).flatten

/-- Tests whether a route element is a `withRoleGuard` wrapper with a non-empty
role list around a `Loadable(lazy(...))` component. -/
def isGuardedLazy : RouteElement → Bool
  | .guarded roles (.loadableLazy _) => !roles.isEmpty
  | _ => false

end RouterTable

namespace RoleGuard

/-- The authentication state `RoleProtectedRoute` reads from `useAuth()`.
`roleName` is `none` when the context carries no role. -/
structure AuthState where
  isAuthenticated : Bool
  roleName : Option String
  deriving DecidableEq, Repr

/-- What `RoleProtectedRoute` renders. -/
inductive RenderResult where
  | sessionClosed
  | navigate (target : String)
  | child
  deriving DecidableEq, Repr

/-- The `ROLE_DEFAULT_PATH` record; `none` models an absent key. -/
def ROLE_DEFAULT_PATH (role : String) : Option String :=
  if role = "administrador" then some "/menu/reportes"
  else if role = "conductor" then some "/menu/entregas"
  else none

/-- The fallback path computed inside `RoleProtectedRoute`:
`role ? ROLE_DEFAULT_PATH[role] ?? '/inicio' : '/inicio'` (an absent or empty
role name is falsy in JavaScript). -/
def roleFallback (roleName : Option String) : String :=
  if optStrTruthy roleName then (ROLE_DEFAULT_PATH (roleName.getD "")).getD "/inicio"
  else "/inicio"

/-- The body of the `RoleProtectedRoute` component. -/
def roleProtectedRoute (allowedRoles : List String) (auth : AuthState) : RenderResult :=
  if !auth.isAuthenticated then .sessionClosed
  else if allowedRoles.length > 0 &&
      (!(optStrTruthy auth.roleName) || !(allowedRoles.contains (auth.roleName.getD ""))) then
    .navigate (roleFallback auth.roleName)
  else .child

end RoleGuard

namespace RouterTable

/-- Tests whether a route element is produced by `withRoleGuard` at all. -/
def isGuarded : RouteElement → Bool
  | .guarded _ _ => true
  | _ => false

end RouterTable

/-- C1 (counterexample): the route table is not uniformly guarded and lazy.
The route object `{ path: '/inicio', element: <Home/> }` is in the `Router`
array, its element is the eagerly imported `Home` component, and it is neither
a `Loadable(lazy(...))` component nor wrapped by `withRoleGuard`. -/
theorem c1_route_table_counterexample :
    (⟨"/inicio", RouterTable.RouteElement.eager "Home"⟩ : RouterTable.ChildRoute) ∈
        RouterTable.allChildRoutes ∧
      RouterTable.isGuardedLazy (RouterTable.RouteElement.eager "Home") = false ∧
      ¬ (∀ r ∈ RouterTable.allChildRoutes, RouterTable.isGuardedLazy r.element = true) := by
  refine ⟨by decide, rfl, ?_⟩
  intro h
  have := h ⟨"/inicio", RouterTable.RouteElement.eager "Home"⟩ (by decide)
  simp [RouterTable.isGuardedLazy] at this

/-- C1 (amended): every route object of the `Router` array whose element is
produced by `withRoleGuard` wraps a lazily loaded (`Loadable(lazy(...))`) page
component and carries a non-empty role list; routes outside the guarded menu
pages (such as `/inicio`, the auth pages, `/menu/perfil` and `/sample-page`)
are not guarded. -/
theorem c1_guarded_routes_are_lazy_with_roles :
    ∀ r ∈ RouterTable.allChildRoutes,
      RouterTable.isGuarded r.element = true →
      RouterTable.isGuardedLazy r.element = true := by
  decide

/-- Witness for C1's amended theorem at the `/menu/vehiculos` route. -/
theorem c1_guarded_routes_are_lazy_with_roles_witness :
    (⟨"/menu/vehiculos",
        RouterTable.withRoleGuard (.loadableLazy "Vehiculos") ["administrador"]⟩ :
        RouterTable.ChildRoute) ∈ RouterTable.allChildRoutes ∧
      RouterTable.isGuardedLazy
        (RouterTable.withRoleGuard (.loadableLazy "Vehiculos") ["administrador"]) = true :=
  ⟨by decide,
   c1_guarded_routes_are_lazy_with_roles
     ⟨"/menu/vehiculos",
       RouterTable.withRoleGuard (.loadableLazy "Vehiculos") ["administrador"]⟩
     (by decide) (by decide)⟩

/-- C2: `RoleProtectedRoute` is a total case split on the authentication state:
an unauthenticated state renders the session-closed message (never the child);
an authenticated state with a non-empty `allowedRoles` whose role is absent or
not allowed redirects to the role's default path (`/menu/reportes` for
`administrador`, `/menu/entregas` for `conductor`, `/inicio` otherwise); every
other state renders the child. -/
theorem c2_roleProtectedRoute_case_split
    (allowedRoles : List String) (auth : RoleGuard.AuthState) :
    (auth.isAuthenticated = false →
      RoleGuard.roleProtectedRoute allowedRoles auth = .sessionClosed)
    ∧ (auth.isAuthenticated = true → allowedRoles ≠ [] →
        (optStrTruthy auth.roleName = false ∨
          ∀ r, auth.roleName = some r → r ∉ allowedRoles) →
        RoleGuard.roleProtectedRoute allowedRoles auth =
          .navigate (RoleGuard.roleFallback auth.roleName))
    ∧ RoleGuard.roleFallback (some "administrador") = "/menu/reportes"
    ∧ RoleGuard.roleFallback (some "conductor") = "/menu/entregas"
    ∧ RoleGuard.roleFallback none = "/inicio"
    ∧ (∀ r, r ≠ "administrador" → r ≠ "conductor" →
        RoleGuard.roleFallback (some r) = "/inicio")
    ∧ (auth.isAuthenticated = true →
        (allowedRoles = [] ∨
          ∃ r, auth.roleName = some r ∧ r ≠ "" ∧ r ∈ allowedRoles) →
        RoleGuard.roleProtectedRoute allowedRoles auth = .child) := by
  refine ⟨?_, ?_, by decide, by decide, by decide, ?_, ?_⟩
  · intro h
    simp [RoleGuard.roleProtectedRoute, h]
  · intro hauth hne hmiss
    have hlen : allowedRoles.length > 0 := List.length_pos.mpr hne
    simp only [RoleGuard.roleProtectedRoute, hauth]
    simp
    refine ⟨hlen, ?_⟩
    intro htr
    rcases hmiss with h | h
    · rw [htr] at h
      exact absurd h (by simp)
    · cases hr : auth.roleName with
      | none => rw [hr] at htr; simp [optStrTruthy] at htr
      | some r => simp only [hr, Option.getD_some]; exact h r hr
  · intro r h1 h2
    by_cases hr : r = ""
    · simp [RoleGuard.roleFallback, optStrTruthy, hr]
    · simp [RoleGuard.roleFallback, optStrTruthy, hr,
        RoleGuard.ROLE_DEFAULT_PATH, h1, h2]
  · intro hauth hok
    simp only [RoleGuard.roleProtectedRoute, hauth]
    simp
    intro hlen
    rcases hok with h | h
    · rw [h] at hlen
      simp at hlen
    · obtain ⟨r, hr, hne, hmem⟩ := h
      rw [hr]
      simp [optStrTruthy, hne, hmem]

/-- Witness for C2 at a concrete authenticated conductor hitting an
administrator-only role list. -/
theorem c2_roleProtectedRoute_case_split_witness :
    RoleGuard.roleProtectedRoute ["administrador"]
        ⟨true, some "conductor"⟩ = .navigate "/menu/entregas" := by
  have h := c2_roleProtectedRoute_case_split ["administrador"] ⟨true, some "conductor"⟩
  have hnav := h.2.1 rfl (by decide)
    (Or.inr (by intro r hr; cases hr; decide))
  rw [hnav, h.2.2.2.1]

namespace Reportes

/-- The three delivery states a report record can carry
(`type EstadoReporte = 'entregado' | 'en_proceso' | 'no_entregado'`). -/
inductive EstadoReporte where
  | entregado
  | en_proceso
  | no_entregado
  deriving DecidableEq, Repr

/-- The fixed `ESTADO_ORDER` array of the reports view. -/
def ESTADO_ORDER : List EstadoReporte :=
  [.entregado, .en_proceso, .no_entregado]

/-- A mapped report record (`type Programacion` of the reports view). -/
structure Programacion where
  id : String
  estado : EstadoReporte
  conductorId : Option String
  conductorNombre : String
  fechaEntrega : Option String
  deriving DecidableEq, Repr

/-- The status filter select value (`type Estado = 'todos' | EstadoReporte`). -/
inductive EstadoFilter where
  | todos
  | solo (e : EstadoReporte)
  deriving DecidableEq, Repr

/-- The `filteredProgramaciones` memo: keeps a record unless the status filter
excludes its `estado` or the driver filter excludes its `conductorId` (the
string `'todos'` is the driver filter's all-pass sentinel). -/
def filteredProgramaciones (programaciones : List Programacion)
    (estado : EstadoFilter) (conductor : String) : List Programacion :=
  programaciones.filter fun item =>
    if estado ≠ .todos ∧ EstadoFilter.solo item.estado ≠ estado then false
    else if conductor ≠ "todos" ∧ item.conductorId ≠ some conductor then false
    else true

/-- The `statusTotals` accumulator record of the `charts` memo. -/
structure StatusTotals where
  entregado : Nat
  en_proceso : Nat
  no_entregado : Nat
  deriving DecidableEq, Repr

/-- Reads the field of `StatusTotals` named by an `EstadoReporte`
(`statusTotals[item.estado]`). -/
def StatusTotals.get (t : StatusTotals) : EstadoReporte → Nat
  | .entregado => t.entregado
  | .en_proceso => t.en_proceso
  | .no_entregado => t.no_entregado

/-- The `statusTotals[item.estado] += 1` update. -/
def StatusTotals.bump (t : StatusTotals) : EstadoReporte → StatusTotals
  | .entregado => { t with entregado := t.entregado + 1 }
  | .en_proceso => { t with en_proceso := t.en_proceso + 1 }
  | .no_entregado => { t with no_entregado := t.no_entregado + 1 }

/-- The `statusTotals` computed by the `forEach` loop of the `charts` memo. -/
def statusTotals (records : List Programacion) : StatusTotals :=
  records.foldl (fun t r => t.bump r.estado) ⟨0, 0, 0⟩

/-- One value of the `dateBuckets` record.  The display `label` (a locale
formatting of the date) is irrelevant to the claims and omitted; the bucket
keeps the `sortKey` and per-status `counts` exactly as the source builds
them. -/
structure DateBucket where
  sortKey : String
  counts : StatusTotals
  deriving DecidableEq, Repr

/-- The `dateKey` of a record: `item.fechaEntrega ?? 'sin-fecha'`. -/
def dateKey (r : Programacion) : String := r.fechaEntrega.getD "sin-fecha"

/-- Processing one record against the `dateBuckets` object: create the bucket
`{ sortKey: item.fechaEntrega ?? '9999-12-31', counts: 0 }` if the key is new
(appended in insertion order, as JavaScript objects enumerate string keys),
then increment `counts[item.estado]`.  The association list mirrors the
JavaScript object keyed by `dateKey`. -/
def bucketStep (r : Programacion) :
    List (String × DateBucket) → List (String × DateBucket)
  | [] => [(dateKey r, ⟨r.fechaEntrega.getD "9999-12-31", StatusTotals.bump ⟨0, 0, 0⟩ r.estado⟩)]
  | (k, b) :: rest =>
    if k = dateKey r then (k, ⟨b.sortKey, b.counts.bump r.estado⟩) :: rest
    else (k, b) :: bucketStep r rest

/-- The `dateBuckets` object after the `forEach` loop, as an association list
in key insertion order. -/
def dateBuckets (records : List Programacion) : List (String × DateBucket) :=
  records.foldl (fun bs r => bucketStep r bs) []

/-- The `totalRegistros` value of the `charts` memo: the sum of the three
status totals. -/
def totalRegistros (records : List Programacion) : Nat :=
  (statusTotals records).entregado + (statusTotals records).en_proceso +
    (statusTotals records).no_entregado

/-- The JavaScript `Math.round` on a non-negative exact rational
(round half away from zero, which is round half up for the non-negative
percentages the view computes). -/
def jsRound (q : ℚ) : ℤ := ⌊q + 1 / 2⌋

/-- The `porcentajeEntregado` value: `totalRegistros ?
Math.round((statusTotals.entregado / totalRegistros) * 100) : 0`. -/
def porcentajeEntregado (records : List Programacion) : ℤ :=
  if totalRegistros records ≠ 0 then
    jsRound (((statusTotals records).entregado : ℚ) / (totalRegistros records : ℚ) * 100)
  else 0

/-- The comparator of `sortedDateKeys` orders bucket keys by their bucket's
`sortKey`; the sort is stable, as `Array.prototype.sort` is.  The embedding
sorts the association entries and keeps their keys. -/
def sortedDateBuckets (records : List Programacion) : List (String × DateBucket) :=
  (dateBuckets records).mergeSort fun x y => jsSle x.2.sortKey y.2.sortKey

/-- The `sortedDateKeys` array of the `charts` memo. -/
def sortedDateKeys (records : List Programacion) : List String :=
  (sortedDateBuckets records).map Prod.fst

end Reportes

/-- C5: `filteredProgramaciones` keeps exactly the records, in their original
order, whose `estado` passes the status filter (`'todos'` passes everything)
and whose `conductorId` passes the driver filter (`'todos'` passes
everything). -/
theorem c5_filteredProgramaciones_characterization
    (programaciones : List Reportes.Programacion)
    (estado : Reportes.EstadoFilter) (conductor : String) :
    Reportes.filteredProgramaciones programaciones estado conductor =
      programaciones.filter fun r =>
        decide ((estado = .todos ∨ estado = .solo r.estado) ∧
          (conductor = "todos" ∨ r.conductorId = some conductor)) := by
  unfold Reportes.filteredProgramaciones
  apply List.filter_congr
  intro r _
  by_cases h1 : estado = Reportes.EstadoFilter.todos <;>
    by_cases h2 : conductor = "todos" <;>
    by_cases h3 : Reportes.EstadoFilter.solo r.estado = estado <;>
    by_cases h4 : r.conductorId = some conductor <;>
    simp_all [eq_comm]

namespace Reportes

theorem StatusTotals.get_bump_self (t : StatusTotals) (e : EstadoReporte) :
    (t.bump e).get e = t.get e + 1 := by
  cases e <;> rfl

theorem StatusTotals.get_bump_ne (t : StatusTotals) (e f : EstadoReporte)
    (h : f ≠ e) : (t.bump f).get e = t.get e := by
  cases e <;> cases f <;> first | rfl | exact absurd rfl h

theorem statusTotals_foldl (rs : List Programacion) (t : StatusTotals)
    (e : EstadoReporte) :
    (rs.foldl (fun t r => t.bump r.estado) t).get e =
      t.get e + (rs.filter fun r => decide (r.estado = e)).length := by
  induction rs generalizing t with
  | nil => simp
  | cons r rs ih =>
    simp only [List.foldl_cons, List.filter_cons]
    by_cases h : r.estado = e
    · rw [ih, h, StatusTotals.get_bump_self]
      simp
      omega
    · rw [ih, StatusTotals.get_bump_ne t e r.estado h]
      simp [h]

theorem statusTotals_count (rs : List Programacion) (e : EstadoReporte) :
    (statusTotals rs).get e = (rs.filter fun r => decide (r.estado = e)).length := by
  have h := statusTotals_foldl rs ⟨0, 0, 0⟩ e
  have h0 : (⟨0, 0, 0⟩ : StatusTotals).get e = 0 := by cases e <;> rfl
  rw [statusTotals, h, h0, Nat.zero_add]

theorem count_partition (rs : List Programacion) :
    (rs.filter fun r => decide (r.estado = EstadoReporte.entregado)).length +
      (rs.filter fun r => decide (r.estado = EstadoReporte.en_proceso)).length +
      (rs.filter fun r => decide (r.estado = EstadoReporte.no_entregado)).length =
      rs.length := by
  induction rs with
  | nil => simp
  | cons r rs ih =>
    cases h : r.estado <;> simp [List.filter_cons, h] <;> omega

theorem totalRegistros_eq_length (rs : List Programacion) :
    totalRegistros rs = rs.length := by
  have he := statusTotals_count rs .entregado
  have hp := statusTotals_count rs .en_proceso
  have hn := statusTotals_count rs .no_entregado
  simp only [StatusTotals.get] at he hp hn
  rw [totalRegistros, he, hp, hn]
  exact count_partition rs

/-- Total of the three per-status counts of one date bucket. -/
def bucketTotal (b : DateBucket) : Nat :=
  b.counts.entregado + b.counts.en_proceso + b.counts.no_entregado

theorem bucketTotal_bump (b : DateBucket) (e : EstadoReporte) :
    bucketTotal ⟨b.sortKey, b.counts.bump e⟩ = bucketTotal b + 1 := by
  cases e <;> simp [bucketTotal, StatusTotals.bump] <;> omega

theorem bucketStep_total (r : Programacion) (bs : List (String × DateBucket)) :
    ((bucketStep r bs).map fun kb => bucketTotal kb.2).sum =
      (bs.map fun kb => bucketTotal kb.2).sum + 1 := by
  induction bs with
  | nil =>
    cases h : r.estado <;> simp [bucketStep, bucketTotal, StatusTotals.bump, h]
  | cons kb rest ih =>
    by_cases h : kb.1 = dateKey r
    · simp only [bucketStep, if_pos h, List.map_cons, List.sum_cons]
      rw [bucketTotal_bump]
      omega
    · simp only [bucketStep, if_neg h, List.map_cons, List.sum_cons, ih]
      omega

theorem dateBuckets_foldl_total (rs : List Programacion)
    (bs : List (String × DateBucket)) :
    (((rs.foldl (fun bs r => bucketStep r bs) bs).map fun kb => bucketTotal kb.2).sum) =
      ((bs.map fun kb => bucketTotal kb.2).sum) + rs.length := by
  induction rs generalizing bs with
  | nil => simp
  | cons r rs ih =>
    simp only [List.foldl_cons, List.length_cons]
    rw [ih, bucketStep_total]
    omega

theorem dateBuckets_total (rs : List Programacion) :
    ((dateBuckets rs).map fun kb => bucketTotal kb.2).sum = rs.length := by
  have h := dateBuckets_foldl_total rs []
  simpa [dateBuckets] using h

end Reportes

namespace Reportes

/-- The key / sortKey pairs of the bucket object, used to track which buckets
exist independently of their running counts. -/
def keyPairs (bs : List (String × DateBucket)) : List (String × String) :=
  bs.map fun kb => (kb.1, kb.2.sortKey)

theorem keyPairs_bucketStep (r : Programacion) (bs : List (String × DateBucket)) :
    ∀ p ∈ keyPairs (bucketStep r bs),
      p ∈ keyPairs bs ∨ p = (dateKey r, r.fechaEntrega.getD "9999-12-31") := by
  induction bs with
  | nil =>
    intro p hp
    simp [bucketStep, keyPairs] at hp
    exact Or.inr (by simp [hp])
  | cons kb rest ih =>
    intro p hp
    by_cases h : kb.1 = dateKey r
    · simp only [bucketStep, if_pos h, keyPairs, List.map_cons, List.mem_cons] at hp ⊢
      rcases hp with hp | hp
      · exact Or.inl (Or.inl (by simp [hp]))
      · exact Or.inl (Or.inr hp)
    · simp only [bucketStep, if_neg h, keyPairs, List.map_cons, List.mem_cons] at hp ⊢
      rcases hp with hp | hp
      · exact Or.inl (Or.inl hp)
      · rcases ih p hp with hm | hm
        · exact Or.inl (Or.inr hm)
        · exact Or.inr hm

theorem keyPairs_foldl_inv (rs : List Programacion) (bs : List (String × DateBucket)) :
    ∀ p ∈ keyPairs (rs.foldl (fun bs r => bucketStep r bs) bs),
      p ∈ keyPairs bs ∨ (p.1 = "sin-fecha" ∧ p.2 = "9999-12-31") ∨
        (p.2 = p.1 ∧ ∃ r ∈ rs, r.fechaEntrega = some p.1) := by
  induction rs generalizing bs with
  | nil => intro p hp; exact Or.inl hp
  | cons r rs ih =>
    intro p hp
    simp only [List.foldl_cons] at hp
    rcases ih (bucketStep r bs) p hp with hm | hm | hm
    · rcases keyPairs_bucketStep r bs p hm with hb | hb
      · exact Or.inl hb
      · cases hf : r.fechaEntrega with
        | none =>
          refine Or.inr (Or.inl ?_)
          rw [hb]
          simp [dateKey, hf]
        | some d =>
          refine Or.inr (Or.inr ?_)
          rw [hb]
          simp only [dateKey, hf, Option.getD_some]
          exact ⟨by simp, r, List.mem_cons_self r rs, hf⟩
    · exact Or.inr (Or.inl hm)
    · obtain ⟨hpp, q, hq, hqf⟩ := hm
      exact Or.inr (Or.inr ⟨hpp, q, List.mem_cons_of_mem r hq, hqf⟩)

theorem mem_dateBuckets_inv (rs : List Programacion) :
    ∀ x ∈ dateBuckets rs,
      (x.1 = "sin-fecha" ∧ x.2.sortKey = "9999-12-31") ∨
        (x.2.sortKey = x.1 ∧ ∃ r ∈ rs, r.fechaEntrega = some x.1) := by
  intro x hx
  have hp : (x.1, x.2.sortKey) ∈ keyPairs (dateBuckets rs) := by
    simp only [keyPairs, List.mem_map]
    exact ⟨x, hx, rfl⟩
  rcases keyPairs_foldl_inv rs [] (x.1, x.2.sortKey) hp with hm | hm | hm
  · simp [keyPairs] at hm
  · exact Or.inl hm
  · exact Or.inr hm

/-- The key list of the bucket object, in insertion order. -/
def bucketKeys (bs : List (String × DateBucket)) : List String :=
  bs.map Prod.fst

theorem bucketKeys_bucketStep (r : Programacion) (bs : List (String × DateBucket)) :
    bucketKeys (bucketStep r bs) =
      if dateKey r ∈ bucketKeys bs then bucketKeys bs
      else bucketKeys bs ++ [dateKey r] := by
  induction bs with
  | nil => simp [bucketStep, bucketKeys]
  | cons kb rest ih =>
    by_cases h : kb.1 = dateKey r
    · have hmem : dateKey r ∈ bucketKeys (kb :: rest) := by
        simp only [bucketKeys, List.map_cons, List.mem_cons]
        exact Or.inl h.symm
      rw [if_pos hmem]
      simp [bucketStep, if_pos h, bucketKeys]
    · have hcons : bucketKeys (bucketStep r (kb :: rest)) =
          kb.1 :: bucketKeys (bucketStep r rest) := by
        simp [bucketStep, if_neg h, bucketKeys]
      have hmem : dateKey r ∈ bucketKeys (kb :: rest) ↔ dateKey r ∈ bucketKeys rest := by
        simp [bucketKeys, Ne.symm h]
      by_cases hr : dateKey r ∈ bucketKeys rest
      · rw [if_pos (hmem.mpr hr), hcons, ih, if_pos hr]
        simp [bucketKeys]
      · rw [if_neg (fun hc => hr (hmem.mp hc)), hcons, ih, if_neg hr]
        simp [bucketKeys]

theorem nodup_bucketKeys_foldl (rs : List Programacion)
    (bs : List (String × DateBucket)) (h : (bucketKeys bs).Nodup) :
    (bucketKeys (rs.foldl (fun bs r => bucketStep r bs) bs)).Nodup := by
  induction rs generalizing bs with
  | nil => exact h
  | cons r rs ih =>
    simp only [List.foldl_cons]
    apply ih
    rw [bucketKeys_bucketStep]
    by_cases hm : dateKey r ∈ bucketKeys bs
    · simpa [hm] using h
    · simp [hm, List.nodup_append, h]

theorem nodup_dateBucketKeys (rs : List Programacion) :
    (bucketKeys (dateBuckets rs)).Nodup :=
  nodup_bucketKeys_foldl rs [] (by simp [bucketKeys])

theorem sortedDateBuckets_pairwise (rs : List Programacion) :
    List.Pairwise (fun x y => jsSle x.2.sortKey y.2.sortKey = true)
      (sortedDateBuckets rs) :=
  @List.sorted_mergeSort (String × DateBucket)
    (fun x y => jsSle x.2.sortKey y.2.sortKey)
    (fun a b c hab hbc => jsSle_trans a.2.sortKey b.2.sortKey c.2.sortKey hab hbc)
    (fun a b => jsSle_total a.2.sortKey b.2.sortKey)
    (dateBuckets rs)

theorem sortedDateBuckets_perm (rs : List Programacion) :
    (sortedDateBuckets rs).Perm (dateBuckets rs) :=
  List.mergeSort_perm (dateBuckets rs) _

end Reportes

namespace Reportes

/-- Tests that a record's date (when present) precedes the `'9999-12-31'`
sentinel `sortKey` that the no-date bucket receives. -/
def fechaBelowMax (r : Programacion) : Bool :=
  match r.fechaEntrega with
  | some d => jsSlt d "9999-12-31"
  | none => true

theorem sinFecha_bucket_last (rs : List Programacion)
    (H : ∀ r ∈ rs, fechaBelowMax r = true)
    (i : Nat) (h : i < (sortedDateKeys rs).length)
    (hs : (sortedDateKeys rs).get ⟨i, h⟩ = "sin-fecha") :
    i = (sortedDateKeys rs).length - 1 := by
  by_contra hne
  have hlen : (sortedDateKeys rs).length = (sortedDateBuckets rs).length := by
    simp [sortedDateKeys]
  have hiL : i < (sortedDateBuckets rs).length := by omega
  have hlast : (sortedDateBuckets rs).length - 1 < (sortedDateBuckets rs).length := by
    omega
  have hilt : i < (sortedDateBuckets rs).length - 1 := by omega
  have hx1 : ((sortedDateBuckets rs).get ⟨i, hiL⟩).1 = "sin-fecha" := by
    have hmap : (sortedDateKeys rs).get ⟨i, h⟩ =
        ((sortedDateBuckets rs).get ⟨i, hiL⟩).1 := by
      simp [sortedDateKeys, List.get_eq_getElem, List.getElem_map]
    rw [hmap] at hs
    exact hs
  set x := (sortedDateBuckets rs).get ⟨i, hiL⟩ with hxdef
  set y := (sortedDateBuckets rs).get
    ⟨(sortedDateBuckets rs).length - 1, hlast⟩ with hydef
  have hpw := sortedDateBuckets_pairwise rs
  rw [List.pairwise_iff_getElem] at hpw
  have hxy : jsSle x.2.sortKey y.2.sortKey = true := by
    have hp := hpw i ((sortedDateBuckets rs).length - 1) hiL hlast hilt
    simpa [hxdef, hydef, List.get_eq_getElem] using hp
  have hxm : x ∈ dateBuckets rs :=
    (sortedDateBuckets_perm rs).mem_iff.mp (List.get_mem _ _ _)
  have hym : y ∈ dateBuckets rs :=
    (sortedDateBuckets_perm rs).mem_iff.mp (List.get_mem _ _ _)
  have hxk : x.2.sortKey = "9999-12-31" := by
    rcases mem_dateBuckets_inv rs x hxm with ⟨_, hk⟩ | ⟨hk, r, hrm, hrf⟩
    · exact hk
    · rw [hx1] at hrf
      have hb := H r hrm
      rw [fechaBelowMax, hrf] at hb
      exact absurd hb (by decide)
  have hnd : ((sortedDateBuckets rs).map Prod.fst).Nodup := by
    have hp : ((sortedDateBuckets rs).map Prod.fst).Perm
        ((dateBuckets rs).map Prod.fst) :=
      (sortedDateBuckets_perm rs).map Prod.fst
    exact hp.nodup_iff.mpr (nodup_dateBucketKeys rs)
  have hy1 : y.1 ≠ "sin-fecha" := by
    intro hy1
    have hnd2 := List.pairwise_iff_getElem.mp hnd
    have hmlen : ((sortedDateBuckets rs).map Prod.fst).length =
        (sortedDateBuckets rs).length := by simp
    have hneq := hnd2 i ((sortedDateBuckets rs).length - 1)
      (by omega) (by omega) hilt
    rw [List.getElem_map, List.getElem_map] at hneq
    have hxg : (sortedDateBuckets rs)[i] = x := by
      rw [hxdef, List.get_eq_getElem]
    have hyg : (sortedDateBuckets rs)[(sortedDateBuckets rs).length - 1] = y := by
      rw [hydef, List.get_eq_getElem]
    rw [hxg, hyg, hx1, hy1] at hneq
    exact hneq rfl
  rcases mem_dateBuckets_inv rs y hym with ⟨hk1, _⟩ | ⟨hk, r, hrm, hrf⟩
  · exact hy1 hk1
  · have hb := H r hrm
    rw [fechaBelowMax, hrf] at hb
    have hb2 : jsSlt y.1 "9999-12-31" = true := hb
    rw [hk, hxk] at hxy
    rw [jsSle_eq_not_slt] at hxy
    rw [hb2] at hxy
    simp at hxy

end Reportes

/-- Helper: a stable two-element merge sort keeps an ordered pair in place. -/
theorem mergeSort_pair {α : Type} (le : α → α → Bool)
    (htrans : ∀ a b c, le a b = true → le b c = true → le a c = true)
    (htotal : ∀ a b, (le a b || le b a) = true)
    (x y : α) (hxy : le x y = true) :
    ([x, y].mergeSort le) = [x, y] := by
  obtain ⟨l₁, l₂, heq, hrest, hl₁⟩ := List.mergeSort_cons htrans htotal x [y]
  have hy : [y].mergeSort le = [y] :=
    List.perm_singleton.mp (List.mergeSort_perm [y] le)
  rw [hy] at hrest
  cases l₁ with
  | nil =>
    simp only [List.nil_append] at hrest heq
    rw [heq, hrest]
  | cons a l₁ =>
    simp only [List.cons_append, List.cons.injEq] at hrest
    obtain ⟨ha, -⟩ := hrest
    have hmem := hl₁ a (List.mem_cons_self a l₁)
    rw [← ha, hxy] at hmem
    simp at hmem

namespace Reportes

/-- The aggregation facts C4 states about the `charts` memo, as one predicate
over the filtered record list. -/
def chartsClaim (records : List Programacion) : Prop :=
  (∀ e, (statusTotals records).get e =
      (records.filter fun r => decide (r.estado = e)).length)
  ∧ totalRegistros records = records.length
  ∧ totalRegistros records =
      (statusTotals records).get .entregado + (statusTotals records).get .en_proceso +
        (statusTotals records).get .no_entregado
  ∧ ((sortedDateBuckets records).map fun kb => bucketTotal kb.2).sum = records.length
  ∧ (records ≠ [] → porcentajeEntregado records =
      jsRound (100 * ((statusTotals records).entregado : ℚ) / (totalRegistros records : ℚ)))
  ∧ (records = [] → porcentajeEntregado records = 0)
  ∧ List.Pairwise (fun x y => jsSle x.2.sortKey y.2.sortKey = true)
      (sortedDateBuckets records)
  ∧ ((∀ r ∈ records, fechaBelowMax r = true) →
      ∀ i (h : i < (sortedDateKeys records).length),
        (sortedDateKeys records).get ⟨i, h⟩ = "sin-fecha" →
          i = (sortedDateKeys records).length - 1)

/-- Two records whose bucket sort keys tie at `'9999-12-31'`: one with no
delivery date and one dated exactly `9999-12-31`. -/
def clashRecords : List Programacion :=
  [{ id := "1", estado := .entregado, conductorId := none,
     conductorNombre := "Sin asignar", fechaEntrega := none },
   { id := "2", estado := .entregado, conductorId := none,
     conductorNombre := "Sin asignar", fechaEntrega := some "9999-12-31" }]

/-- A small record list exercising every aggregation path. -/
def sampleRecords : List Programacion :=
  [{ id := "1", estado := .entregado, conductorId := some "7",
     conductorNombre := "Ana", fechaEntrega := some "2024-05-02" },
   { id := "2", estado := .en_proceso, conductorId := none,
     conductorNombre := "Sin asignar", fechaEntrega := none },
   { id := "3", estado := .no_entregado, conductorId := some "7",
     conductorNombre := "Ana", fechaEntrega := some "2024-05-01" }]

end Reportes

/-- C4 (amended): for every list of filtered report records, each `statusTotals`
entry counts the records with that `estado`; `totalRegistros` is the list's
length and the sum of the three status totals; the per-date bucket count sums
add up to the list's length; `porcentajeEntregado` is
`round(100 * entregado / totalRegistros)` and `0` on the empty list; the date
buckets are sorted ascending by `sortKey` (the record's date, `'9999-12-31'`
for records lacking a date); and, provided every dated record's date precedes
`'9999-12-31'` (as every real `yyyy-MM-dd` date does), the no-date bucket is
placed last. -/
theorem c4_charts_aggregation (records : List Reportes.Programacion) :
    Reportes.chartsClaim records := by
  refine ⟨Reportes.statusTotals_count records,
    Reportes.totalRegistros_eq_length records, rfl, ?_, ?_, ?_,
    Reportes.sortedDateBuckets_pairwise records,
    fun H i h hs => Reportes.sinFecha_bucket_last records H i h hs⟩
  · have hperm : ((Reportes.sortedDateBuckets records).map fun kb =>
        Reportes.bucketTotal kb.2).Perm
        ((Reportes.dateBuckets records).map fun kb => Reportes.bucketTotal kb.2) :=
      (Reportes.sortedDateBuckets_perm records).map _
    rw [hperm.sum_eq]
    exact Reportes.dateBuckets_total records
  · intro hne
    have hnz : Reportes.totalRegistros records ≠ 0 := by
      rw [Reportes.totalRegistros_eq_length]
      simpa using hne
    rw [Reportes.porcentajeEntregado, if_pos hnz]
    congr 1
    ring
  · intro hnil
    subst hnil
    rfl

/-- Witness for C4 at a concrete three-record list whose dates all precede the
`'9999-12-31'` sentinel. -/
theorem c4_charts_aggregation_witness :
    (∀ r ∈ Reportes.sampleRecords, Reportes.fechaBelowMax r = true) ∧
      Reportes.chartsClaim Reportes.sampleRecords :=
  ⟨by decide, c4_charts_aggregation Reportes.sampleRecords⟩

/-- C4 (counterexample): on a list containing a record with no date and a
record dated exactly `9999-12-31`, both buckets carry the sortKey
`'9999-12-31'`, the stable sort keeps insertion order, and the no-date bucket
(`'sin-fecha'`) comes first rather than last. -/
theorem c4_charts_counterexample :
    Reportes.sortedDateKeys Reportes.clashRecords = ["sin-fecha", "9999-12-31"] ∧
      ¬ (∀ i (h : i < (Reportes.sortedDateKeys Reportes.clashRecords).length),
          (Reportes.sortedDateKeys Reportes.clashRecords).get ⟨i, h⟩ = "sin-fecha" →
            i = (Reportes.sortedDateKeys Reportes.clashRecords).length - 1) := by
  have hbuckets : Reportes.dateBuckets Reportes.clashRecords =
      [("sin-fecha", ⟨"9999-12-31", ⟨1, 0, 0⟩⟩),
        ("9999-12-31", ⟨"9999-12-31", ⟨1, 0, 0⟩⟩)] := by
    rfl
  have hsorted : Reportes.sortedDateBuckets Reportes.clashRecords =
      [("sin-fecha", ⟨"9999-12-31", ⟨1, 0, 0⟩⟩),
        ("9999-12-31", ⟨"9999-12-31", ⟨1, 0, 0⟩⟩)] := by
    rw [Reportes.sortedDateBuckets, hbuckets]
    exact mergeSort_pair
      (fun p q : String × Reportes.DateBucket => jsSle p.2.sortKey q.2.sortKey)
      (fun a b c hab hbc => jsSle_trans a.2.sortKey b.2.sortKey c.2.sortKey hab hbc)
      (fun a b => jsSle_total a.2.sortKey b.2.sortKey) _ _ (by decide)
  have hkeys : Reportes.sortedDateKeys Reportes.clashRecords =
      ["sin-fecha", "9999-12-31"] := by
    rw [Reportes.sortedDateKeys, hsorted]
    rfl
  refine ⟨hkeys, ?_⟩
  intro hall
  have h0 : (0 : Nat) < (Reportes.sortedDateKeys Reportes.clashRecords).length := by
    rw [hkeys]
    decide
  have hz := hall 0 h0 (by simp [hkeys])
  rw [hkeys] at hz
  simp at hz

namespace ProgSalida

/-- The `coerceStringIdToNumber` helper: `Number(value)` on the canonical
decimal id strings the selects carry, `none` for `NaN`.  (JavaScript's
`Number` also accepts signs, decimal points and exponents, which the
`String(id)` select values never contain; note `Number('')` is `0`, which the
embedding reproduces.) -/
def coerceStringIdToNumber (value : String) : Option Int :=
  value.data.foldl
    (fun acc c =>
      match acc with
      | none => none
      | some n => if c.isDigit then some (n * 10 + ((c.toNat : Int) - 48)) else none)
    (some 0)

/-- A mapped pedido row (`type Pedido`).  The fields that never influence the
handler's control flow (`nroSalida`, `cliente`, the raw nota payload) are
omitted; `ubicaciones` keeps the ids of the nota's valid ubicaciones, and a
salida payload entry is identified by the pedido id and its chosen ubicacion
id. -/
structure Pedido where
  id : String
  nroPedido : String
  ubicaciones : List String
  ubicacionSeleccionada : Option String
  seleccionado : Bool
  deriving DecidableEq, Repr

/-- The slice of the `ProgramarSalida` component state that
`guardarProgramacion` reads and writes.  `isSubmitting` is toggled on and back
off inside the handler, so its final value equals its initial one. -/
structure ProgState where
  fechaEntrega : String
  vehiculoId : String
  conductorId : String
  pedidos : List Pedido
  submitError : Option String
  submitSuccess : Option String
  isSubmitting : Bool
  deriving DecidableEq, Repr

/-- The handler's environment: the clock-derived `today` string, the
authentication context, the confirm dialog answer, and the two HTTP responses.
`progRespId` is the value `extractProgramacionId` reads from the first
response's JSON (`none` when absent), and the `ErrText` fields are the
response bodies interpolated into the thrown error messages. -/
structure ProgEnv where
  today : String
  userId : Option Int
  token : Bool
  confirm : Bool
  progRespOk : Bool
  progRespId : Option Int
  progRespErrText : String
  salidasRespOk : Bool
  salidasRespErrText : String
  deriving DecidableEq, Repr

/-- The HTTP requests `guardarProgramacion` can issue, in order. -/
inductive ProgRequest where
  | postProgramacion (idVehiculo idConductor idAdministrador : Int) (fechaEntrega : String)
  | postSalidas (programacionId : Int) (salidas : List (String × String))
  deriving DecidableEq, Repr

/-- Message built from a failed response: `errorText ? base + ': ' + errorText
: base + ' (status).'` (the numeric status is folded into the fallback). -/
def httpErrMessage (base errText : String) : String :=
  if errText = "" then base ++ "." else base ++ ": " ++ errText

/-- The `salidasPayload` construction: for each selected pedido, find the
chosen ubicacion among the pedido's ubicaciones and emit the payload entry;
a missing ubicacion throws. -/
def buildSalidasPayload : List Pedido → Except String (List (String × String))
  | [] => .ok []
  | p :: rest =>
    match p.ubicaciones.find? fun u => p.ubicacionSeleccionada = some u with
    | none =>
      .error ("No se encontro la ubicacion seleccionada para el pedido " ++
        p.nroPedido ++ ".")
    | some u =>
      match buildSalidasPayload rest with
      | .error e => .error e
      | .ok tail => .ok ((p.id, u) :: tail)

/-- The `guardarProgramacion` submit handler, returning the final component
state and the HTTP requests issued, in order. -/
def guardarProgramacion (st : ProgState) (env : ProgEnv) :
    ProgState × List ProgRequest :=
  if st.isSubmitting then (st, [])
  else
    let st1 := { st with submitError := none, submitSuccess := none }
    if st1.fechaEntrega = "" then
      ({ st1 with submitError := some "Selecciona una fecha de entrega." }, [])
    else if jsSlt st1.fechaEntrega env.today then
      ({ st1 with
        submitError := some "La fecha de entrega no puede ser anterior a hoy." }, [])
    else if st1.vehiculoId = "" then
      ({ st1 with submitError := some "Selecciona un vehiculo." }, [])
    else if st1.conductorId = "" then
      ({ st1 with submitError := some "Selecciona un conductor." }, [])
    else
      let seleccionados := st1.pedidos.filter fun p => p.seleccionado
      if seleccionados.length = 0 then
        ({ st1 with
          submitError := some "Selecciona al menos un pedido para programar." }, [])
      else if (seleccionados.filter fun p =>
          !(optStrTruthy p.ubicacionSeleccionada)).length ≠ 0 then
        ({ st1 with
          submitError := some "Selecciona una ubicacion para cada pedido marcado." }, [])
      else
        match coerceStringIdToNumber st1.vehiculoId with
        | none =>
          ({ st1 with
            submitError := some "El identificador del vehiculo no es valido." }, [])
        | some idVehiculo =>
          match coerceStringIdToNumber st1.conductorId with
          | none =>
            ({ st1 with
              submitError := some "El identificador del conductor no es valido." }, [])
          | some idConductor =>
            match env.userId with
            | none =>
              ({ st1 with
                submitError :=
                  some "No se encontro el identificador del administrador." }, [])
            | some idAdministrador =>
              if !env.token then
                ({ st1 with
                  submitError := some
                    "No se encontro un token de autenticacion. Inicia sesion e intentalo nuevamente." },
                  [])
              else if !env.confirm then (st1, [])
              else
                let req1 := ProgRequest.postProgramacion idVehiculo idConductor
                  idAdministrador st1.fechaEntrega
                if !env.progRespOk then
                  ({ st1 with
                    submitError := some (httpErrMessage
                      "Error al registrar la programacion" env.progRespErrText) },
                    [req1])
                else
                  match env.progRespId with
                  | none =>
                    ({ st1 with
                      submitError := some
                        "La API no devolvio el identificador de la programacion." },
                      [req1])
                  | some programacionId =>
                    match buildSalidasPayload seleccionados with
                    | .error msg =>
                      ({ st1 with submitError := some msg }, [req1])
                    | .ok salidas =>
                      let req2 := ProgRequest.postSalidas programacionId salidas
                      if !env.salidasRespOk then
                        ({ st1 with
                          submitError := some (httpErrMessage
                            "Error al registrar las salidas" env.salidasRespErrText) },
                          [req1, req2])
                      else
                        ({ st1 with
                          submitSuccess := some "Programacion registrada correctamente.",
                          pedidos := st1.pedidos.map (fun p =>
                            { p with seleccionado := false, ubicacionSeleccionada := none }) },
                          [req1, req2])

end ProgSalida

namespace ProgSalida

/-- The `pedidosSeleccionados` memo: the selected pedidos in list order. -/
def pedidosSeleccionados (st : ProgState) : List Pedido :=
  st.pedidos.filter fun p => p.seleccionado

/-- What C3 states about `guardarProgramacion`: each failed precondition
reports its specific error and issues no request, leaving the rest of the
state unchanged (the handler clears the previous submit error/success
banners first); requests are issued only when every precondition holds; and
on the fully successful path the programacion POST is followed by the salidas
POST. -/
def guardarClaim (st : ProgState) (env : ProgEnv) : Prop :=
  (st.fechaEntrega = "" →
    guardarProgramacion st env =
      ({ st with
          submitError := some "Selecciona una fecha de entrega.",
          submitSuccess := none }, []))
  ∧ (st.fechaEntrega ≠ "" → jsSlt st.fechaEntrega env.today = true →
      guardarProgramacion st env =
        ({ st with
            submitError := some "La fecha de entrega no puede ser anterior a hoy.",
            submitSuccess := none }, []))
  ∧ (st.fechaEntrega ≠ "" → jsSlt st.fechaEntrega env.today = false →
      st.vehiculoId = "" →
      guardarProgramacion st env =
        ({ st with
            submitError := some "Selecciona un vehiculo.",
            submitSuccess := none }, []))
  ∧ (st.fechaEntrega ≠ "" → jsSlt st.fechaEntrega env.today = false →
      st.vehiculoId ≠ "" → st.conductorId = "" →
      guardarProgramacion st env =
        ({ st with
            submitError := some "Selecciona un conductor.",
            submitSuccess := none }, []))
  ∧ (st.fechaEntrega ≠ "" → jsSlt st.fechaEntrega env.today = false →
      st.vehiculoId ≠ "" → st.conductorId ≠ "" →
      (pedidosSeleccionados st).length = 0 →
      guardarProgramacion st env =
        ({ st with
            submitError := some "Selecciona al menos un pedido para programar.",
            submitSuccess := none }, []))
  ∧ (st.fechaEntrega ≠ "" → jsSlt st.fechaEntrega env.today = false →
      st.vehiculoId ≠ "" → st.conductorId ≠ "" →
      (pedidosSeleccionados st).length ≠ 0 →
      ((pedidosSeleccionados st).filter fun p =>
        !(optStrTruthy p.ubicacionSeleccionada)).length ≠ 0 →
      guardarProgramacion st env =
        ({ st with
            submitError := some "Selecciona una ubicacion para cada pedido marcado.",
            submitSuccess := none }, []))
  ∧ ((guardarProgramacion st env).2 ≠ [] →
      st.fechaEntrega ≠ "" ∧ jsSlt st.fechaEntrega env.today = false ∧
        st.vehiculoId ≠ "" ∧ st.conductorId ≠ "" ∧
        pedidosSeleccionados st ≠ [] ∧
        ∀ p ∈ pedidosSeleccionados st, optStrTruthy p.ubicacionSeleccionada = true)
  ∧ (∀ iv ic ia pid salidas,
      st.fechaEntrega ≠ "" → jsSlt st.fechaEntrega env.today = false →
      st.vehiculoId ≠ "" → st.conductorId ≠ "" →
      (pedidosSeleccionados st).length ≠ 0 →
      (∀ p ∈ pedidosSeleccionados st, optStrTruthy p.ubicacionSeleccionada = true) →
      coerceStringIdToNumber st.vehiculoId = some iv →
      coerceStringIdToNumber st.conductorId = some ic →
      env.userId = some ia → env.token = true → env.confirm = true →
      env.progRespOk = true → env.progRespId = some pid →
      buildSalidasPayload (pedidosSeleccionados st) = .ok salidas →
      env.salidasRespOk = true →
      guardarProgramacion st env =
        ({ st with
            submitError := none,
            submitSuccess := some "Programacion registrada correctamente.",
            pedidos := st.pedidos.map fun p =>
              { p with seleccionado := false, ubicacionSeleccionada := none } },
          [ProgRequest.postProgramacion iv ic ia st.fechaEntrega,
            ProgRequest.postSalidas pid salidas]))

end ProgSalida

/-- C3 (amended): when no submission is already in flight
(`isSubmitting = false`), `guardarProgramacion` validates in order — missing
date, date earlier than today, missing vehicle, missing driver, no selected
pedido, selected pedido without a chosen location — reporting the specific
error with no HTTP request and no other state change (beyond clearing the
previous submit banners); any issued request implies every precondition held;
and the fully successful path POSTs the programacion followed by the selected
salidas. -/
theorem c3_guardarProgramacion_preconditions
    (st : ProgSalida.ProgState) (env : ProgSalida.ProgEnv)
    (hsub : st.isSubmitting = false) :
    ProgSalida.guardarClaim st env := by
  have e1 : st.fechaEntrega = "" →
      ProgSalida.guardarProgramacion st env =
        ({ st with
            submitError := some "Selecciona una fecha de entrega.",
            submitSuccess := none }, []) := fun h1 => by
    simp [ProgSalida.guardarProgramacion, hsub, h1]
  have e2 : st.fechaEntrega ≠ "" → jsSlt st.fechaEntrega env.today = true →
      ProgSalida.guardarProgramacion st env =
        ({ st with
            submitError := some "La fecha de entrega no puede ser anterior a hoy.",
            submitSuccess := none }, []) := fun h1 h2 => by
    simp [ProgSalida.guardarProgramacion, hsub, h1, h2]
  have e3 : st.fechaEntrega ≠ "" → jsSlt st.fechaEntrega env.today = false →
      st.vehiculoId = "" →
      ProgSalida.guardarProgramacion st env =
        ({ st with
            submitError := some "Selecciona un vehiculo.",
            submitSuccess := none }, []) := fun h1 h2 h3 => by
    simp [ProgSalida.guardarProgramacion, hsub, h1, h2, h3]
  have e4 : st.fechaEntrega ≠ "" → jsSlt st.fechaEntrega env.today = false →
      st.vehiculoId ≠ "" → st.conductorId = "" →
      ProgSalida.guardarProgramacion st env =
        ({ st with
            submitError := some "Selecciona un conductor.",
            submitSuccess := none }, []) := fun h1 h2 h3 h4 => by
    simp [ProgSalida.guardarProgramacion, hsub, h1, h2, h3, h4]
  have e5 : st.fechaEntrega ≠ "" → jsSlt st.fechaEntrega env.today = false →
      st.vehiculoId ≠ "" → st.conductorId ≠ "" →
      (ProgSalida.pedidosSeleccionados st).length = 0 →
      ProgSalida.guardarProgramacion st env =
        ({ st with
            submitError := some "Selecciona al menos un pedido para programar.",
            submitSuccess := none }, []) := fun h1 h2 h3 h4 h5 => by
    simp only [ProgSalida.pedidosSeleccionados] at h5
    simp [ProgSalida.guardarProgramacion, hsub, h1, h2, h3, h4, h5]
  have e6 : st.fechaEntrega ≠ "" → jsSlt st.fechaEntrega env.today = false →
      st.vehiculoId ≠ "" → st.conductorId ≠ "" →
      (ProgSalida.pedidosSeleccionados st).length ≠ 0 →
      ((ProgSalida.pedidosSeleccionados st).filter fun p =>
        !(optStrTruthy p.ubicacionSeleccionada)).length ≠ 0 →
      ProgSalida.guardarProgramacion st env =
        ({ st with
            submitError := some "Selecciona una ubicacion para cada pedido marcado.",
            submitSuccess := none }, []) := fun h1 h2 h3 h4 h5 h6 => by
    simp only [ProgSalida.pedidosSeleccionados] at h5 h6
    simp [ProgSalida.guardarProgramacion, hsub, h1, h2, h3, h4, h5, h6]
    intro hall
    exfalso
    have hne : ((st.pedidos.filter fun p => p.seleccionado).filter fun p =>
        !(optStrTruthy p.ubicacionSeleccionada)) ≠ [] := by
      intro h
      rw [h] at h6
      simp at h6
    obtain ⟨p, hp⟩ := List.exists_mem_of_ne_nil _ hne
    simp only [List.mem_filter] at hp
    obtain ⟨⟨hpm, hpsel⟩, hptr⟩ := hp
    have hfalse := hall p hpm (by simpa using hptr)
    rw [hfalse] at hpsel
    exact Bool.false_ne_true hpsel
  have e8 : ∀ iv ic ia pid salidas,
      st.fechaEntrega ≠ "" → jsSlt st.fechaEntrega env.today = false →
      st.vehiculoId ≠ "" → st.conductorId ≠ "" →
      (ProgSalida.pedidosSeleccionados st).length ≠ 0 →
      (∀ p ∈ ProgSalida.pedidosSeleccionados st,
        optStrTruthy p.ubicacionSeleccionada = true) →
      ProgSalida.coerceStringIdToNumber st.vehiculoId = some iv →
      ProgSalida.coerceStringIdToNumber st.conductorId = some ic →
      env.userId = some ia → env.token = true → env.confirm = true →
      env.progRespOk = true → env.progRespId = some pid →
      ProgSalida.buildSalidasPayload (ProgSalida.pedidosSeleccionados st) =
        .ok salidas →
      env.salidasRespOk = true →
      ProgSalida.guardarProgramacion st env =
        ({ st with
            submitError := none,
            submitSuccess := some "Programacion registrada correctamente.",
            pedidos := st.pedidos.map fun p =>
              { p with seleccionado := false, ubicacionSeleccionada := none } },
          [ProgSalida.ProgRequest.postProgramacion iv ic ia st.fechaEntrega,
            ProgSalida.ProgRequest.postSalidas pid salidas]) := by
    intro iv ic ia pid salidas h1 h2 h3 h4 h5 h6 hv hc hu ht hcf hpo hpi hbs hso
    simp only [ProgSalida.pedidosSeleccionados] at h5 h6 hbs
    have h6len : ((st.pedidos.filter fun p => p.seleccionado).filter fun p =>
        !(optStrTruthy p.ubicacionSeleccionada)).length = 0 := by
      have hnil : ((st.pedidos.filter fun p => p.seleccionado).filter fun p =>
          !(optStrTruthy p.ubicacionSeleccionada)) = [] := by
        rw [List.filter_eq_nil_iff]
        intro p hp
        rw [h6 p hp]
        simp
      rw [hnil]
      rfl
    simp [ProgSalida.guardarProgramacion, hsub, h1, h2, h3, h4, h5, h6len,
      hv, hc, hu, ht, hcf, hpo, hpi, hbs, hso]
    intro x hx hft
    by_contra hsel
    have hxsel : x.seleccionado = true := by
      cases hxs : x.seleccionado
      · exact absurd hxs hsel
      · rfl
    have hxf : x ∈ st.pedidos.filter fun p => p.seleccionado := by
      simp [List.mem_filter, hx, hxsel]
    have hcontra := h6 x hxf
    rw [hft] at hcontra
    exact Bool.false_ne_true hcontra
  refine ⟨e1, e2, e3, e4, e5, e6, ?_, e8⟩
  intro hne
  have n1 : st.fechaEntrega ≠ "" := fun h => hne (by rw [e1 h])
  have n2 : jsSlt st.fechaEntrega env.today = false := by
    cases hj : jsSlt st.fechaEntrega env.today
    · rfl
    · exact absurd (by rw [e2 n1 hj]) hne
  have n3 : st.vehiculoId ≠ "" := fun h => hne (by rw [e3 n1 n2 h])
  have n4 : st.conductorId ≠ "" := fun h => hne (by rw [e4 n1 n2 n3 h])
  have n5 : ProgSalida.pedidosSeleccionados st ≠ [] := fun h =>
    hne (by rw [e5 n1 n2 n3 n4 (by rw [h]; rfl)])
  have n6 : ∀ p ∈ ProgSalida.pedidosSeleccionados st,
      optStrTruthy p.ubicacionSeleccionada = true := by
    by_contra hcon
    push_neg at hcon
    obtain ⟨p, hpm, hpf⟩ := hcon
    have hpf2 : optStrTruthy p.ubicacionSeleccionada = false := by
      cases hb : optStrTruthy p.ubicacionSeleccionada
      · rfl
      · exact absurd hb hpf
    have hmem : p ∈ (ProgSalida.pedidosSeleccionados st).filter fun q =>
        !(optStrTruthy q.ubicacionSeleccionada) := by
      simp [List.mem_filter, hpm, hpf2]
    have hlen : ((ProgSalida.pedidosSeleccionados st).filter fun q =>
        !(optStrTruthy q.ubicacionSeleccionada)).length ≠ 0 := by
      intro h0
      rw [List.length_eq_zero] at h0
      rw [h0] at hmem
      simp at hmem
    have h5ne : (ProgSalida.pedidosSeleccionados st).length ≠ 0 := by
      intro h0
      rw [List.length_eq_zero] at h0
      exact n5 h0
    exact hne (by rw [e6 n1 n2 n3 n4 h5ne hlen])
  exact ⟨n1, n2, n3, n4, n5, n6⟩

namespace ProgSalida

/-- A state with a submission already in flight and an empty delivery date. -/
def busyState : ProgState :=
  { fechaEntrega := "", vehiculoId := "", conductorId := "", pedidos := [],
    submitError := none, submitSuccess := none, isSubmitting := true }

/-- A state with a stale success banner and an empty delivery date. -/
def staleBannerState : ProgState :=
  { fechaEntrega := "", vehiculoId := "", conductorId := "", pedidos := [],
    submitError := none,
    submitSuccess := some "Programacion registrada correctamente.",
    isSubmitting := false }

/-- A default environment for the concrete runs. -/
def sampleEnv : ProgEnv :=
  { today := "2026-10-11", userId := some 1, token := true, confirm := true,
    progRespOk := true, progRespId := some 1, progRespErrText := "",
    salidasRespOk := true, salidasRespErrText := "" }

/-- A selected pedido with its location chosen. -/
def samplePedido : Pedido := ⟨"n1", "p1", ["u1"], some "u1", true⟩

/-- A fully valid submission state. -/
def validState : ProgState :=
  { fechaEntrega := "2026-12-01", vehiculoId := "5", conductorId := "9",
    pedidos := [samplePedido],
    submitError := none, submitSuccess := none, isSubmitting := false }

end ProgSalida

/-- C3 (counterexample): the claim fails as stated.  First, with a submission
already in flight (`isSubmitting = true`) and a missing delivery date, the
handler returns without reporting any error.  Second, even without a
submission in flight, a missing date does not leave all component state
unchanged: the previous success banner is cleared. -/
theorem c3_guardarProgramacion_counterexample :
    (ProgSalida.busyState.fechaEntrega = "" ∧
      ProgSalida.guardarProgramacion ProgSalida.busyState ProgSalida.sampleEnv =
        (ProgSalida.busyState, []) ∧
      (ProgSalida.guardarProgramacion ProgSalida.busyState
        ProgSalida.sampleEnv).1.submitError = none) ∧
    (ProgSalida.staleBannerState.fechaEntrega = "" ∧
      ProgSalida.staleBannerState.submitSuccess =
        some "Programacion registrada correctamente." ∧
      (ProgSalida.guardarProgramacion ProgSalida.staleBannerState
        ProgSalida.sampleEnv).1.submitSuccess = none) := by
  decide

/-- Witness for C3 at concrete valid and invalid submissions. -/
theorem c3_guardarProgramacion_preconditions_witness :
    ProgSalida.validState.isSubmitting = false ∧
      ProgSalida.guardarClaim ProgSalida.validState ProgSalida.sampleEnv :=
  ⟨rfl, c3_guardarProgramacion_preconditions ProgSalida.validState
    ProgSalida.sampleEnv rfl⟩

namespace Dispositivos

/-- The slice of the `Dispositivos` component state that `handleGuardarNuevo`
reads and writes.  `isSubmitting` is toggled on and back off inside the
handler, so its final value equals its initial one. -/
structure NuevoState where
  nuevoCodigo : String
  nuevoModelo : String
  query : String
  searchTerm : String
  page : Int
  reloadKey : Int
  submitError : Option String
  submitSuccess : Option String
  deriving DecidableEq, Repr

/-- The handler's environment.  `traccarRespId` is the (stringified) `id`
field of Traccar's JSON response — `none` when the field is absent or `null`
(or the response body could not be parsed), `some ""` when Traccar answers
with an empty id.  The `ErrText` fields are the failed responses' bodies. -/
structure NuevoEnv where
  token : Bool
  traccarOk : Bool
  traccarRespId : Option String
  traccarErrText : String
  backendOk : Bool
  backendErrText : String
  deriving DecidableEq, Repr

/-- The HTTP requests `handleGuardarNuevo` can issue, in order. -/
inductive DevRequest where
  | traccarAddDevice (name uniqueId category : String)
  | backendAddDevice (codigo modelo : String) (activo status : Int)
  | traccarDeleteDevice (deviceId : String)
  deriving DecidableEq, Repr

/-- The `handleGuardarNuevo` handler of the devices page: register the device
in Traccar first, then in the backend; on any error after Traccar returned an
id, issue a compensating DELETE to Traccar before reporting the error. -/
def handleGuardarNuevo (st : NuevoState) (env : NuevoEnv) :
    NuevoState × List DevRequest :=
  if !env.token then
    ({ st with submitError := some "No se encontro un token de autenticacion." }, [])
  else
    let st1 := { st with submitError := none, submitSuccess := none }
    let codigo := jsTrim st.nuevoCodigo
    let modelo := jsTrim st.nuevoModelo
    if codigo = "" ∨ modelo = "" then
      ({ st1 with
          submitError := some "Completa el codigo y el modelo del dispositivo." }, [])
    else
      let req1 := DevRequest.traccarAddDevice codigo codigo modelo
      if !env.traccarOk then
        ({ st1 with
            submitError := some (ProgSalida.httpErrMessage
              "Error al registrar el dispositivo en Traccar" env.traccarErrText) },
          [req1])
      else
        match env.traccarRespId with
        | none =>
          ({ st1 with
              submitError := some
                "Traccar no devolvio un identificador para el dispositivo registrado." },
            [req1])
        | some tid =>
          if tid = "" then
            ({ st1 with
                submitError := some
                  "Traccar no devolvio un identificador para el dispositivo registrado." },
              [req1, DevRequest.traccarDeleteDevice tid])
          else
            let modeloAlmacenado := codigo ++ ", " ++ modelo
            let req2 := DevRequest.backendAddDevice tid modeloAlmacenado 1 1
            if !env.backendOk then
              ({ st1 with
                  submitError := some (ProgSalida.httpErrMessage
                    "Error al registrar el dispositivo" env.backendErrText) },
                [req1, req2, DevRequest.traccarDeleteDevice tid])
            else
              ({ st1 with
                  submitSuccess := some "Dispositivo registrado correctamente.",
                  nuevoCodigo := "", nuevoModelo := "", query := "",
                  searchTerm := "all", page := 0,
                  reloadKey := st.reloadKey + 1 },
                [req1, req2])

end Dispositivos

namespace Dispositivos

theorem handleGuardarNuevo_noToken (st : NuevoState) (env : NuevoEnv)
    (ht : env.token = false) :
    handleGuardarNuevo st env =
      ({ st with submitError := some "No se encontro un token de autenticacion." },
        []) := by
  simp [handleGuardarNuevo, ht]

theorem handleGuardarNuevo_emptyForm (st : NuevoState) (env : NuevoEnv)
    (ht : env.token = true)
    (hcm : jsTrim st.nuevoCodigo = "" ∨ jsTrim st.nuevoModelo = "") :
    handleGuardarNuevo st env =
      ({ st with
          submitError := some "Completa el codigo y el modelo del dispositivo.",
          submitSuccess := none }, []) := by
  simp [handleGuardarNuevo, ht, hcm]

theorem handleGuardarNuevo_traccarFail (st : NuevoState) (env : NuevoEnv)
    (ht : env.token = true) (hc : jsTrim st.nuevoCodigo ≠ "")
    (hm : jsTrim st.nuevoModelo ≠ "") (hto : env.traccarOk = false) :
    handleGuardarNuevo st env =
      ({ st with
          submitError := some (ProgSalida.httpErrMessage
            "Error al registrar el dispositivo en Traccar" env.traccarErrText),
          submitSuccess := none },
        [DevRequest.traccarAddDevice (jsTrim st.nuevoCodigo)
          (jsTrim st.nuevoCodigo) (jsTrim st.nuevoModelo)]) := by
  simp [handleGuardarNuevo, ht, hc, hm, hto]

theorem handleGuardarNuevo_noId (st : NuevoState) (env : NuevoEnv)
    (ht : env.token = true) (hc : jsTrim st.nuevoCodigo ≠ "")
    (hm : jsTrim st.nuevoModelo ≠ "") (hto : env.traccarOk = true)
    (hid : env.traccarRespId = none) :
    handleGuardarNuevo st env =
      ({ st with
          submitError := some
            "Traccar no devolvio un identificador para el dispositivo registrado.",
          submitSuccess := none },
        [DevRequest.traccarAddDevice (jsTrim st.nuevoCodigo)
          (jsTrim st.nuevoCodigo) (jsTrim st.nuevoModelo)]) := by
  simp [handleGuardarNuevo, ht, hc, hm, hto, hid]

theorem handleGuardarNuevo_emptyId (st : NuevoState) (env : NuevoEnv)
    (ht : env.token = true) (hc : jsTrim st.nuevoCodigo ≠ "")
    (hm : jsTrim st.nuevoModelo ≠ "") (hto : env.traccarOk = true)
    (hid : env.traccarRespId = some "") :
    handleGuardarNuevo st env =
      ({ st with
          submitError := some
            "Traccar no devolvio un identificador para el dispositivo registrado.",
          submitSuccess := none },
        [DevRequest.traccarAddDevice (jsTrim st.nuevoCodigo)
          (jsTrim st.nuevoCodigo) (jsTrim st.nuevoModelo),
          DevRequest.traccarDeleteDevice ""]) := by
  simp [handleGuardarNuevo, ht, hc, hm, hto, hid]

theorem handleGuardarNuevo_backendFail (st : NuevoState) (env : NuevoEnv)
    (tid : String) (ht : env.token = true) (hc : jsTrim st.nuevoCodigo ≠ "")
    (hm : jsTrim st.nuevoModelo ≠ "") (hto : env.traccarOk = true)
    (hid : env.traccarRespId = some tid) (htid : tid ≠ "")
    (hbo : env.backendOk = false) :
    handleGuardarNuevo st env =
      ({ st with
          submitError := some (ProgSalida.httpErrMessage
            "Error al registrar el dispositivo" env.backendErrText),
          submitSuccess := none },
        [DevRequest.traccarAddDevice (jsTrim st.nuevoCodigo)
          (jsTrim st.nuevoCodigo) (jsTrim st.nuevoModelo),
          DevRequest.backendAddDevice tid
            (jsTrim st.nuevoCodigo ++ ", " ++ jsTrim st.nuevoModelo) 1 1,
          DevRequest.traccarDeleteDevice tid]) := by
  simp [handleGuardarNuevo, ht, hc, hm, hto, hid, htid, hbo]

theorem handleGuardarNuevo_success (st : NuevoState) (env : NuevoEnv)
    (tid : String) (ht : env.token = true) (hc : jsTrim st.nuevoCodigo ≠ "")
    (hm : jsTrim st.nuevoModelo ≠ "") (hto : env.traccarOk = true)
    (hid : env.traccarRespId = some tid) (htid : tid ≠ "")
    (hbo : env.backendOk = true) :
    handleGuardarNuevo st env =
      ({ st with
          submitError := none,
          submitSuccess := some "Dispositivo registrado correctamente.",
          nuevoCodigo := "", nuevoModelo := "", query := "",
          searchTerm := "all", page := 0, reloadKey := st.reloadKey + 1 },
        [DevRequest.traccarAddDevice (jsTrim st.nuevoCodigo)
          (jsTrim st.nuevoCodigo) (jsTrim st.nuevoModelo),
          DevRequest.backendAddDevice tid
            (jsTrim st.nuevoCodigo ++ ", " ++ jsTrim st.nuevoModelo) 1 1]) := by
  simp [handleGuardarNuevo, ht, hc, hm, hto, hid, htid, hbo]

end Dispositivos

/-- C8: device creation integrates with Traccar in a fixed order: on a valid
form the first request POSTs `{name: codigo, uniqueId: codigo}` to Traccar's
`/api/devices`; an absent or empty Traccar id fails the handler with no
backend POST; every backend POST carries the Traccar id as its `codigo`, the
original codigo joined with the model as its `modelo`, `activo = 1` and
`status = 1`, and immediately follows the Traccar POST; and (within a run
that passes the token check, which clears the banners) the success banner and
form reset happen exactly when both calls succeed. -/
theorem c8_handleGuardarNuevo_traccar_order
    (st : Dispositivos.NuevoState) (env : Dispositivos.NuevoEnv) :
    (env.token = true → jsTrim st.nuevoCodigo ≠ "" → jsTrim st.nuevoModelo ≠ "" →
      (Dispositivos.handleGuardarNuevo st env).2.head? =
        some (Dispositivos.DevRequest.traccarAddDevice (jsTrim st.nuevoCodigo)
          (jsTrim st.nuevoCodigo) (jsTrim st.nuevoModelo)))
    ∧ (env.token = true → jsTrim st.nuevoCodigo ≠ "" → jsTrim st.nuevoModelo ≠ "" →
        env.traccarOk = true →
        (env.traccarRespId = none ∨ env.traccarRespId = some "") →
        (Dispositivos.handleGuardarNuevo st env).1.submitError =
          some "Traccar no devolvio un identificador para el dispositivo registrado." ∧
        (Dispositivos.handleGuardarNuevo st env).1.submitSuccess = none ∧
        ∀ c m a s, Dispositivos.DevRequest.backendAddDevice c m a s ∉
          (Dispositivos.handleGuardarNuevo st env).2)
    ∧ (∀ c m a s, Dispositivos.DevRequest.backendAddDevice c m a s ∈
          (Dispositivos.handleGuardarNuevo st env).2 →
        env.traccarRespId = some c ∧ c ≠ "" ∧
        m = jsTrim st.nuevoCodigo ++ ", " ++ jsTrim st.nuevoModelo ∧
        a = 1 ∧ s = 1 ∧
        (Dispositivos.handleGuardarNuevo st env).2.take 2 =
          [Dispositivos.DevRequest.traccarAddDevice (jsTrim st.nuevoCodigo)
            (jsTrim st.nuevoCodigo) (jsTrim st.nuevoModelo),
            Dispositivos.DevRequest.backendAddDevice c m a s])
    ∧ (env.token = true →
        (Dispositivos.handleGuardarNuevo st env).1.submitSuccess ≠ none →
        jsTrim st.nuevoCodigo ≠ "" ∧ jsTrim st.nuevoModelo ≠ "" ∧
        env.traccarOk = true ∧
        (∃ tid, env.traccarRespId = some tid ∧ tid ≠ "") ∧ env.backendOk = true ∧
        (Dispositivos.handleGuardarNuevo st env).1.nuevoCodigo = "" ∧
        (Dispositivos.handleGuardarNuevo st env).1.nuevoModelo = "")
    ∧ (∀ tid, env.token = true → jsTrim st.nuevoCodigo ≠ "" →
        jsTrim st.nuevoModelo ≠ "" → env.traccarOk = true →
        env.traccarRespId = some tid → tid ≠ "" → env.backendOk = true →
        Dispositivos.handleGuardarNuevo st env =
          ({ st with
              submitError := none,
              submitSuccess := some "Dispositivo registrado correctamente.",
              nuevoCodigo := "", nuevoModelo := "", query := "",
              searchTerm := "all", page := 0, reloadKey := st.reloadKey + 1 },
            [Dispositivos.DevRequest.traccarAddDevice (jsTrim st.nuevoCodigo)
              (jsTrim st.nuevoCodigo) (jsTrim st.nuevoModelo),
              Dispositivos.DevRequest.backendAddDevice tid
                (jsTrim st.nuevoCodigo ++ ", " ++ jsTrim st.nuevoModelo) 1 1])) := by
  refine ⟨?_, ?_, ?_, ?_, ?_⟩
  · intro ht hc hm
    cases hto : env.traccarOk
    · rw [Dispositivos.handleGuardarNuevo_traccarFail st env ht hc hm hto]
      rfl
    · cases hid : env.traccarRespId with
      | none =>
        rw [Dispositivos.handleGuardarNuevo_noId st env ht hc hm hto hid]
        rfl
      | some tid =>
        by_cases htid : tid = ""
        · subst htid
          rw [Dispositivos.handleGuardarNuevo_emptyId st env ht hc hm hto hid]
          rfl
        · cases hbo : env.backendOk
          · rw [Dispositivos.handleGuardarNuevo_backendFail st env tid ht hc hm hto hid htid hbo]
            rfl
          · rw [Dispositivos.handleGuardarNuevo_success st env tid ht hc hm hto hid htid hbo]
            rfl
  · intro ht hc hm hto hid
    rcases hid with hid | hid
    · rw [Dispositivos.handleGuardarNuevo_noId st env ht hc hm hto hid]
      simp
    · rw [Dispositivos.handleGuardarNuevo_emptyId st env ht hc hm hto hid]
      simp
  · intro c m a s hmem
    cases ht : env.token
    · rw [Dispositivos.handleGuardarNuevo_noToken st env ht] at hmem
      simp at hmem
    · by_cases hcm : jsTrim st.nuevoCodigo = "" ∨ jsTrim st.nuevoModelo = ""
      · rw [Dispositivos.handleGuardarNuevo_emptyForm st env ht hcm] at hmem
        simp at hmem
      · push_neg at hcm
        obtain ⟨hc, hm⟩ := hcm
        cases hto : env.traccarOk
        · rw [Dispositivos.handleGuardarNuevo_traccarFail st env ht hc hm hto] at hmem
          simp at hmem
        · cases hid : env.traccarRespId with
          | none =>
            rw [Dispositivos.handleGuardarNuevo_noId st env ht hc hm hto hid] at hmem
            simp at hmem
          | some tid =>
            by_cases htid : tid = ""
            · subst htid
              rw [Dispositivos.handleGuardarNuevo_emptyId st env ht hc hm hto hid] at hmem
              simp at hmem
            · cases hbo : env.backendOk
              · rw [Dispositivos.handleGuardarNuevo_backendFail st env tid ht hc hm hto hid htid hbo] at hmem ⊢
                simp at hmem
                simp_all
              · rw [Dispositivos.handleGuardarNuevo_success st env tid ht hc hm hto hid htid hbo] at hmem ⊢
                simp at hmem
                simp_all
  · intro ht hss
    by_cases hcm : jsTrim st.nuevoCodigo = "" ∨ jsTrim st.nuevoModelo = ""
    · rw [Dispositivos.handleGuardarNuevo_emptyForm st env ht hcm] at hss
      simp at hss
    · push_neg at hcm
      obtain ⟨hc, hm⟩ := hcm
      cases hto : env.traccarOk
      · rw [Dispositivos.handleGuardarNuevo_traccarFail st env ht hc hm hto] at hss
        simp at hss
      · cases hid : env.traccarRespId with
        | none =>
          rw [Dispositivos.handleGuardarNuevo_noId st env ht hc hm hto hid] at hss
          simp at hss
        | some tid =>
          by_cases htid : tid = ""
          · subst htid
            rw [Dispositivos.handleGuardarNuevo_emptyId st env ht hc hm hto hid] at hss
            simp at hss
          · cases hbo : env.backendOk
            · rw [Dispositivos.handleGuardarNuevo_backendFail st env tid ht hc hm hto hid htid hbo] at hss
              simp at hss
            · rw [Dispositivos.handleGuardarNuevo_success st env tid ht hc hm hto hid htid hbo]
              exact ⟨hc, hm, rfl, ⟨tid, rfl, htid⟩, rfl, rfl, rfl⟩
  · intro tid ht hc hm hto hid htid hbo
    exact Dispositivos.handleGuardarNuevo_success st env tid ht hc hm hto hid htid hbo

namespace Dispositivos

/-- A filled device form with stale search/page state. -/
def nuevoFormState : NuevoState :=
  { nuevoCodigo := "GPS-1", nuevoModelo := "FMB920", query := "gps",
    searchTerm := "gps", page := 2, reloadKey := 0,
    submitError := none, submitSuccess := none }

/-- An environment where Traccar and the backend both succeed. -/
def nuevoFormEnv : NuevoEnv :=
  { token := true, traccarOk := true, traccarRespId := some "17",
    traccarErrText := "", backendOk := true, backendErrText := "" }

/-- An environment where Traccar succeeds but the backend add fails. -/
def nuevoFormEnvBackendFail : NuevoEnv :=
  { token := true, traccarOk := true, traccarRespId := some "17",
    traccarErrText := "", backendOk := false, backendErrText := "boom" }

end Dispositivos

/-- Witness for C8: a concrete valid form against a fully successful
environment. -/
theorem c8_handleGuardarNuevo_traccar_order_witness :
    (jsTrim Dispositivos.nuevoFormState.nuevoCodigo ≠ "" ∧
      jsTrim Dispositivos.nuevoFormState.nuevoModelo ≠ "") ∧
    Dispositivos.handleGuardarNuevo Dispositivos.nuevoFormState
        Dispositivos.nuevoFormEnv =
      ({ Dispositivos.nuevoFormState with
          submitError := none,
          submitSuccess := some "Dispositivo registrado correctamente.",
          nuevoCodigo := "", nuevoModelo := "", query := "",
          searchTerm := "all", page := 0,
          reloadKey := Dispositivos.nuevoFormState.reloadKey + 1 },
        [Dispositivos.DevRequest.traccarAddDevice
            (jsTrim Dispositivos.nuevoFormState.nuevoCodigo)
            (jsTrim Dispositivos.nuevoFormState.nuevoCodigo)
            (jsTrim Dispositivos.nuevoFormState.nuevoModelo),
          Dispositivos.DevRequest.backendAddDevice "17"
            (jsTrim Dispositivos.nuevoFormState.nuevoCodigo ++ ", " ++
              jsTrim Dispositivos.nuevoFormState.nuevoModelo) 1 1]) :=
  ⟨⟨by decide, by decide⟩,
    (c8_handleGuardarNuevo_traccar_order Dispositivos.nuevoFormState
      Dispositivos.nuevoFormEnv).2.2.2.2 "17" rfl (by decide) (by decide)
      rfl rfl (by decide) rfl⟩

/-- C9: device creation is compensated on failure: a Traccar DELETE is issued
exactly when some error occurred after Traccar returned a device id; it
targets that id, is the last request, and precedes the error report; when the
error occurs before Traccar returned an id, no DELETE is sent. -/
theorem c9_handleGuardarNuevo_compensation
    (st : Dispositivos.NuevoState) (env : Dispositivos.NuevoEnv) :
    (∀ d, Dispositivos.DevRequest.traccarDeleteDevice d ∈
        (Dispositivos.handleGuardarNuevo st env).2 →
      env.traccarRespId = some d ∧
        (Dispositivos.handleGuardarNuevo st env).1.submitError ≠ none)
    ∧ (∀ tid, env.token = true → jsTrim st.nuevoCodigo ≠ "" →
        jsTrim st.nuevoModelo ≠ "" → env.traccarOk = true →
        env.traccarRespId = some tid → (tid = "" ∨ env.backendOk = false) →
        (Dispositivos.handleGuardarNuevo st env).2.getLast? =
          some (Dispositivos.DevRequest.traccarDeleteDevice tid) ∧
        (Dispositivos.handleGuardarNuevo st env).1.submitError ≠ none)
    ∧ ((env.traccarOk = false ∨ env.traccarRespId = none) →
        ∀ d, Dispositivos.DevRequest.traccarDeleteDevice d ∉
          (Dispositivos.handleGuardarNuevo st env).2) := by
  refine ⟨?_, ?_, ?_⟩
  · intro d hmem
    cases ht : env.token
    · rw [Dispositivos.handleGuardarNuevo_noToken st env ht] at hmem
      simp at hmem
    · by_cases hcm : jsTrim st.nuevoCodigo = "" ∨ jsTrim st.nuevoModelo = ""
      · rw [Dispositivos.handleGuardarNuevo_emptyForm st env ht hcm] at hmem
        simp at hmem
      · push_neg at hcm
        obtain ⟨hc, hm⟩ := hcm
        cases hto : env.traccarOk
        · rw [Dispositivos.handleGuardarNuevo_traccarFail st env ht hc hm hto] at hmem
          simp at hmem
        · cases hid : env.traccarRespId with
          | none =>
            rw [Dispositivos.handleGuardarNuevo_noId st env ht hc hm hto hid] at hmem
            simp at hmem
          | some tid =>
            by_cases htid : tid = ""
            · subst htid
              rw [Dispositivos.handleGuardarNuevo_emptyId st env ht hc hm hto hid] at hmem ⊢
              simp at hmem
              simp_all
            · cases hbo : env.backendOk
              · rw [Dispositivos.handleGuardarNuevo_backendFail st env tid ht hc hm hto hid htid hbo] at hmem ⊢
                simp at hmem
                simp_all
              · rw [Dispositivos.handleGuardarNuevo_success st env tid ht hc hm hto hid htid hbo] at hmem
                simp at hmem
  · intro tid ht hc hm hto hid hfail
    rcases hfail with hfail | hfail
    · subst hfail
      rw [Dispositivos.handleGuardarNuevo_emptyId st env ht hc hm hto hid]
      exact ⟨rfl, by simp⟩
    · by_cases htid : tid = ""
      · subst htid
        rw [Dispositivos.handleGuardarNuevo_emptyId st env ht hc hm hto hid]
        exact ⟨rfl, by simp⟩
      · rw [Dispositivos.handleGuardarNuevo_backendFail st env tid ht hc hm hto hid htid hfail]
        exact ⟨rfl, by simp⟩
  · intro hbefore d hmem
    cases ht : env.token
    · rw [Dispositivos.handleGuardarNuevo_noToken st env ht] at hmem
      simp at hmem
    · by_cases hcm : jsTrim st.nuevoCodigo = "" ∨ jsTrim st.nuevoModelo = ""
      · rw [Dispositivos.handleGuardarNuevo_emptyForm st env ht hcm] at hmem
        simp at hmem
      · push_neg at hcm
        obtain ⟨hc, hm⟩ := hcm
        cases hto : env.traccarOk
        · rw [Dispositivos.handleGuardarNuevo_traccarFail st env ht hc hm hto] at hmem
          simp at hmem
        · rcases hbefore with hb | hb
          · rw [hb] at hto
            exact Bool.false_ne_true hto
          · rw [Dispositivos.handleGuardarNuevo_noId st env ht hc hm hto hb] at hmem
            simp at hmem

/-- Witness for C9: a concrete run where Traccar succeeded but the backend add
failed, so the handler deletes the Traccar device before reporting. -/
theorem c9_handleGuardarNuevo_compensation_witness :
    Dispositivos.nuevoFormEnvBackendFail.backendOk = false ∧
    ((Dispositivos.handleGuardarNuevo Dispositivos.nuevoFormState
        Dispositivos.nuevoFormEnvBackendFail).2.getLast? =
      some (Dispositivos.DevRequest.traccarDeleteDevice "17") ∧
    (Dispositivos.handleGuardarNuevo Dispositivos.nuevoFormState
        Dispositivos.nuevoFormEnvBackendFail).1.submitError ≠ none) :=
  ⟨rfl, (c9_handleGuardarNuevo_compensation Dispositivos.nuevoFormState
    Dispositivos.nuevoFormEnvBackendFail).2.1 "17" rfl (by decide) (by decide)
    rfl rfl (Or.inr rfl)⟩

/-- The JavaScript `x || d` on integers (`0` is falsy). -/
def jsOrInt (x d : Int) : Int := if x = 0 then d else x

namespace Dispositivos

/-- A raw device item of the paginated response (fields unused by the
pagination logic are kept for completeness). -/
structure DispositivoApi where
  idDispositivo : Int
  codigo : Option String
  modelo : Option String
  activo : Option Int
  status : Option Int
  deriving DecidableEq, Repr

/-- The `json.data` payload of the devices fetch: an array, a Spring-style
page object (each field possibly absent), or something else entirely. -/
inductive FetchData where
  | arr (items : List DispositivoApi)
  | pageObj (content : Option (List DispositivoApi))
      (totalElements totalPages : Option Int) (first last : Option Bool)
  | nullData
  deriving DecidableEq, Repr

/-- The `safePage` the effect puts in the request query:
`Math.max(page, 0)`. -/
def requestedPage (page : Int) : Int := max page 0

/-- The `itemsSource` list the effect extracts from the response. -/
def itemsSource : FetchData → List DispositivoApi
  | .arr items => items
  | .pageObj content _ _ _ _ => content.getD []
  | .nullData => []

/-- The `totalRegistros` the effect computes. -/
def dispTotalRegistros : FetchData → Int
  | .arr items => items.length
  | .pageObj content te _ _ _ =>
    match te with
    | some n => n
    | none => (content.getD []).length
  | .nullData => 0

/-- The `totalPaginas` the effect computes: the reported `totalPages` when
present, else `ceil(totalElements / size)` for positive totals, else 0/1 from
the item list. -/
def dispTotalPaginas (size : Int) : FetchData → Int
  | .arr items => if items.length = 0 then 0 else 1
  | .pageObj content te tp f l =>
    match tp with
    | some n => n
    | none =>
      if dispTotalRegistros (.pageObj content te none f l) > 0 ∧ size > 0 then
        mathCeilDiv (dispTotalRegistros (.pageObj content te none f l)) size
      else if (content.getD []).length = 0 then 0 else 1
  | .nullData => 0

/-- The `firstFlag` the effect computes. -/
def dispFirstFlag (safePage : Int) : FetchData → Bool
  | .arr _ => true
  | .pageObj _ _ _ f _ => f.getD (decide (safePage ≤ 0))
  | .nullData => decide (safePage ≤ 0)

/-- The `lastFlag` the effect computes. -/
def dispLastFlag (safePage size : Int) (data : FetchData) : Bool :=
  match data with
  | .arr _ => true
  | .pageObj content te tp f l =>
    match l with
    | some b => b
    | none =>
      if dispTotalPaginas size (.pageObj content te tp f none) ≠ 0 then
        decide (safePage ≥ dispTotalPaginas size (.pageObj content te tp f none) - 1)
      else decide ((content.getD []).length < size)
  | .nullData => true

/-- What the devices fetch effect does with a parsed response: either reset
the page (when the reported page count proves the current page out of range)
or commit the items and pagination flags. -/
inductive FetchOutcome where
  | resetPage (newPage : Int)
  | commit (items : List DispositivoApi) (totalElements totalPages : Int)
      (first last : Bool)
  deriving DecidableEq, Repr

/-- The state update of `obtenerDispositivos` after a successful response. -/
def obtenerDispositivosUpdate (page size : Int) (data : FetchData) : FetchOutcome :=
  let safePage := max page 0
  let totalPaginas := dispTotalPaginas size data
  if totalPaginas > 0 ∧ safePage ≥ totalPaginas then
    .resetPage (max (totalPaginas - 1) 0)
  else
    .commit (itemsSource data) (dispTotalRegistros data) totalPaginas
      (dispFirstFlag safePage data) (dispLastFlag safePage size data)

/-- The pagination slice of the `Dispositivos` state read by the page
handlers. -/
structure PagState where
  page : Int
  isFirstPage : Bool
  isLastPage : Bool
  loading : Bool
  deriving DecidableEq, Repr

/-- The `handleNextPage` click handler. -/
def handleNextPage (st : PagState) : PagState :=
  if st.isLastPage || st.loading then st else { st with page := st.page + 1 }

/-- The `handlePreviousPage` click handler. -/
def handlePreviousPage (st : PagState) : PagState :=
  if st.isFirstPage || st.loading then st
  else { st with page := max (st.page - 1) 0 }

end Dispositivos

namespace ProgSalida

/-- The pagination slice of the `ProgramarSalida` state read by its pedidos
page handlers (`pedidosCount` is `pedidos.length`). -/
structure PedidosPagState where
  pedidosPage : Int
  pedidosTotalPages : Int
  pedidosTotalElements : Int
  pedidosSize : Int
  esUltimaPaginaPedidos : Bool
  pedidosCount : Int
  isLoadingPedidos : Bool
  deriving DecidableEq, Repr

/-- The `isFirstPedidosPage` derived value. -/
def isFirstPedidosPage (st : PedidosPagState) : Bool :=
  decide (st.pedidosPage ≤ 0)

/-- The `isLastPedidosPage` derived value. -/
def isLastPedidosPage (st : PedidosPagState) : Bool :=
  if st.pedidosTotalPages > 0 then
    decide (st.pedidosPage ≥ st.pedidosTotalPages - 1)
  else st.esUltimaPaginaPedidos || decide (st.pedidosCount < st.pedidosSize)

/-- The `totalPaginasVisibles` derived value:
`Math.max(tp > 0 ? tp : Math.ceil((te || 0) / size) || 1, 1)`. -/
def totalPaginasVisibles (st : PedidosPagState) : Int :=
  max
    (if st.pedidosTotalPages > 0 then st.pedidosTotalPages
     else jsOrInt (mathCeilDiv (jsOrInt st.pedidosTotalElements 0)
       st.pedidosSize) 1)
    1

/-- The `handleNextPedidosPage` click handler. -/
def handleNextPedidosPage (st : PedidosPagState) : PedidosPagState :=
  if isLastPedidosPage st || st.isLoadingPedidos then st
  else { st with pedidosPage := st.pedidosPage + 1 }

/-- The `handlePreviousPedidosPage` click handler. -/
def handlePreviousPedidosPage (st : PedidosPagState) : PedidosPagState :=
  if isFirstPedidosPage st || st.isLoadingPedidos then st
  else { st with pedidosPage := max (st.pedidosPage - 1) 0 }

end ProgSalida

/-- C7: the paginated list pages keep the page index in range: the requested
page is clamped to at least 0, the Previous handlers clamp to at least 0, the
Next handlers do nothing on the last page, a fetch reporting
`totalPages > 0` with the current page out of range resets the page to
`totalPages - 1`, and an omitted `totalPages` is derived as
`ceil(totalElements / size)` for positive totals (in the devices fetch and in
the pedidos page display). -/
theorem c7_pagination_in_range :
    (∀ page : Int, 0 ≤ Dispositivos.requestedPage page)
    ∧ (∀ st : Dispositivos.PagState, st.isLastPage = true →
        Dispositivos.handleNextPage st = st)
    ∧ (∀ st : Dispositivos.PagState, st.isFirstPage = false → st.loading = false →
        0 ≤ (Dispositivos.handlePreviousPage st).page)
    ∧ (∀ (page size : Int) (data : Dispositivos.FetchData),
        Dispositivos.dispTotalPaginas size data > 0 →
        max page 0 ≥ Dispositivos.dispTotalPaginas size data →
        Dispositivos.obtenerDispositivosUpdate page size data =
          .resetPage (Dispositivos.dispTotalPaginas size data - 1))
    ∧ (∀ (size : Int) (content : Option (List Dispositivos.DispositivoApi))
        (te : Option Int) (f l : Option Bool),
        Dispositivos.dispTotalRegistros (.pageObj content te none f l) > 0 →
        size > 0 →
        Dispositivos.dispTotalPaginas size (.pageObj content te none f l) =
          mathCeilDiv
            (Dispositivos.dispTotalRegistros (.pageObj content te none f l)) size)
    ∧ (∀ st : ProgSalida.PedidosPagState, ProgSalida.isLastPedidosPage st = true →
        ProgSalida.handleNextPedidosPage st = st)
    ∧ (∀ st : ProgSalida.PedidosPagState,
        ProgSalida.isFirstPedidosPage st = false → st.isLoadingPedidos = false →
        0 ≤ (ProgSalida.handlePreviousPedidosPage st).pedidosPage)
    ∧ (∀ st : ProgSalida.PedidosPagState, st.pedidosTotalPages = 0 →
        0 < st.pedidosTotalElements → 0 < st.pedidosSize →
        ProgSalida.totalPaginasVisibles st =
          mathCeilDiv st.pedidosTotalElements st.pedidosSize) := by
  refine ⟨?_, ?_, ?_, ?_, ?_, ?_, ?_, ?_⟩
  · intro page
    exact le_max_right page 0
  · intro st h
    simp [Dispositivos.handleNextPage, h]
  · intro st h1 h2
    simp [Dispositivos.handlePreviousPage, h1, h2]
  · intro page size data h1 h2
    simp only [Dispositivos.obtenerDispositivosUpdate]
    rw [if_pos ⟨h1, h2⟩]
    congr 1
    omega
  · intro size content te f l h1 h2
    simp only [Dispositivos.dispTotalPaginas]
    rw [if_pos ⟨h1, h2⟩]
  · intro st h
    simp [ProgSalida.handleNextPedidosPage, h]
  · intro st h1 h2
    simp [ProgSalida.handlePreviousPedidosPage, h1, h2]
  · intro st h0 hte hps
    have h1 : (-st.pedidosTotalElements) < 0 := by omega
    have h2 : Int.ediv (-st.pedidosTotalElements) st.pedidosSize < 0 :=
      Int.ediv_neg' h1 hps
    have hge : 1 ≤ mathCeilDiv st.pedidosTotalElements st.pedidosSize := by
      simp only [mathCeilDiv]
      omega
    have hne : st.pedidosTotalElements ≠ 0 := by omega
    have hmne : mathCeilDiv st.pedidosTotalElements st.pedidosSize ≠ 0 := by omega
    simp only [ProgSalida.totalPaginasVisibles, jsOrInt, h0]
    rw [if_neg (by omega), if_neg hne, if_neg hmne, max_eq_left hge]

/-- Witness for C7 at concrete pages: an out-of-range page 5 against a
3-page response is reset to page 2, and a 30-element response with page size
10 and no reported page count shows `ceil(30 / 10)` pages. -/
theorem c7_pagination_in_range_witness :
    (Dispositivos.dispTotalPaginas 10
        (.pageObj (some []) (some 30) (some 3) none none) > 0 ∧
      max (5 : Int) 0 ≥ Dispositivos.dispTotalPaginas 10
        (.pageObj (some []) (some 30) (some 3) none none)) ∧
    Dispositivos.obtenerDispositivosUpdate 5 10
        (.pageObj (some []) (some 30) (some 3) none none) =
      .resetPage (Dispositivos.dispTotalPaginas 10
        (.pageObj (some []) (some 30) (some 3) none none) - 1) ∧
    ProgSalida.totalPaginasVisibles ⟨0, 0, 30, 10, false, 0, false⟩ =
      mathCeilDiv 30 10 :=
  ⟨⟨by decide, by decide⟩,
    (c7_pagination_in_range).2.2.2.1 5 10
      (.pageObj (some []) (some 30) (some 3) none none) (by decide) (by decide),
    (c7_pagination_in_range).2.2.2.2.2.2.2 ⟨0, 0, 30, 10, false, 0, false⟩
      rfl (by decide) (by decide)⟩

namespace Monitoreo

/-- A mapped monitoring row (`type ProgramacionItem`); `estadoEntrega` has
already been normalized to a number (or `null`) by `parseNumber` in
`mapProgramacion`. -/
structure ProgramacionItem where
  id : String
  fechaEntrega : Option String
  estadoEntrega : Option Int
  vehiculoDescripcion : String
  conductorNombre : String
  dispositivoId : Option String
  deriving DecidableEq, Repr

/-- The `isEstadoEntregado` helper: the estado is numerically 2. -/
def isEstadoEntregado : Option Int → Bool
  | none => false
  | some n => decide (n = 2)

/-- Matches the `^(\d{4})-(\d{2})-(\d{2})` prefix test of
`normalizeIsoDateString`. -/
def isIsoPrefix : List Char → Bool
  | a :: b :: c :: d :: '-' :: e :: f :: '-' :: g :: h :: _ =>
    a.isDigit && b.isDigit && c.isDigit && d.isDigit && e.isDigit &&
      f.isDigit && g.isDigit && h.isDigit
  | _ => false

/-- The `normalizeIsoDateString` helper on a string input: `none` for a blank
string, the 10-character `yyyy-MM-dd` prefix when the trimmed value starts
with one, and otherwise the trimmed value itself. -/
def normalizeIsoDateString (value : String) : Option String :=
  let t := jsTrim value
  if t = "" then none
  else if isIsoPrefix t.data then some (String.mk (t.data.take 10))
  else some t

/-- The `normalizeIsoDateString` helper on a nullable input. -/
def normalizeIsoDateOpt : Option String → Option String
  | none => none
  | some s => normalizeIsoDateString s

/-- The slice of the `PanelMonitoreo` state its handlers read and write.
`actionStatus` pairs the success flag with the message; `editSubmitting` and
`deleteInProgress` are toggled on and back off inside the handlers, so their
final values equal their initial ones. -/
structure MonState where
  items : List ProgramacionItem
  editingProgramacion : Option ProgramacionItem
  editFecha : String
  mutationError : Option String
  actionStatus : Option (Bool × String)
  todayIsoDate : String
  deriving DecidableEq, Repr

/-- The HTTP requests the monitoring panel's mutation handlers can issue. -/
inductive MonRequest where
  | putUpdateFecha (id : String) (fecha : String)
  | deleteProgramacion (id : String)
  deriving DecidableEq, Repr

/-- The `closeEditForm` helper. -/
def closeEditForm (st : MonState) : MonState :=
  { st with editingProgramacion := none, editFecha := "", mutationError := none }

/-- The `openEditForm` click handler: refuses delivered programaciones,
toggles the form closed on a second click, and otherwise seeds the date
input with the programacion's date clamped to today. -/
def openEditForm (st : MonState) (programacion : ProgramacionItem) : MonState :=
  if isEstadoEntregado programacion.estadoEntrega then st
  else
    match st.editingProgramacion with
    | some editing =>
      if editing.id = programacion.id then closeEditForm st
      else openEditFormProceed st programacion
    | none => openEditFormProceed st programacion
where
  openEditFormProceed (st : MonState) (programacion : ProgramacionItem) : MonState :=
    let normalizedProgramacionDate := normalizeIsoDateOpt programacion.fechaEntrega
    let initialDate :=
      match normalizedProgramacionDate with
      | some d => if jsSlt d st.todayIsoDate then st.todayIsoDate else d
      | none => st.todayIsoDate
    { st with
        actionStatus := none, mutationError := none,
        editingProgramacion := some programacion, editFecha := initialDate }

/-- The `handleEditSubmit` form handler: validates the date input, PUTs the
new date and rewrites only the matching item's `fechaEntrega`. -/
def handleEditSubmit (st : MonState) (respOk : Bool) :
    MonState × List MonRequest :=
  match st.editingProgramacion with
  | none => (st, [])
  | some editing =>
    match normalizeIsoDateString st.editFecha with
    | none =>
      ({ st with
          mutationError := some "Selecciona una fecha válida con el formato yyyy-MM-dd." },
        [])
    | some normalizedDate =>
      if jsSlt normalizedDate st.todayIsoDate then
        ({ st with
            mutationError := some "Selecciona una fecha igual o posterior a la fecha actual." },
          [])
      else
        let req := MonRequest.putUpdateFecha editing.id normalizedDate
        if !respOk then
          ({ st with
              actionStatus := some (false, "No se pudo actualizar la fecha. Intenta nuevamente."),
              mutationError := some "No se pudo actualizar la fecha." },
            [req])
        else
          ({ st with
              items := st.items.map fun item =>
                if item.id = editing.id then { item with fechaEntrega := some normalizedDate }
                else item,
              actionStatus := some (true, "Fecha actualizada correctamente."),
              editingProgramacion := none, editFecha := "", mutationError := none },
            [req])

/-- The `handleDelete` click handler: gated by `window.confirm`; on success
filters the item out and closes the edit form when it was editing it. -/
def handleDelete (st : MonState) (programacion : ProgramacionItem)
    (confirm respOk : Bool) : MonState × List MonRequest :=
  if !confirm then (st, [])
  else
    let req := MonRequest.deleteProgramacion programacion.id
    let st1 := { st with actionStatus := none }
    if !respOk then
      ({ st1 with
          actionStatus := some (false,
            "No se pudo eliminar la programación seleccionada. Intenta nuevamente.") },
        [req])
    else
      let st2 := { st1 with items := st1.items.filter fun item => item.id ≠ programacion.id }
      let st3 :=
        match st2.editingProgramacion with
        | some editing => if editing.id = programacion.id then closeEditForm st2 else st2
        | none => st2
      ({ st3 with
          actionStatus := some (true, "Programación eliminada correctamente.") },
        [req])

end Monitoreo

namespace Observacion

/-- The two values of the estado select
(`type EstadoEntregaSelect = 'Entregado' | 'No Entregado'`). -/
inductive EstadoEntregaSelect where
  | entregado
  | no_entregado
  deriving DecidableEq, Repr

/-- The `mapEstadoToValue` helper. -/
def mapEstadoToValue : EstadoEntregaSelect → Int
  | .entregado => 2
  | .no_entregado => 1

/-- JavaScript truthiness of a nullable number (`null`, `undefined` and `0`
are falsy). -/
def jsTruthyOptInt : Option Int → Bool
  | none => false
  | some n => decide (n ≠ 0)

/-- The slice of the `EntregaObservacion` state `onSubmit` reads.
`isSubmitting` is toggled on and back off inside the handler. -/
structure ObsState where
  observacion : String
  estado : EstadoEntregaSelect
  isSubmitting : Bool
  deriving DecidableEq, Repr

/-- The handler's environment: the authenticated conductor id, the salida
detail id from the route (`productoId ?? state.notaId ?? ''`), and the
confirm dialog answer.  The HTTP response only triggers a navigation or an
alert, neither of which writes component state. -/
structure ObsEnv where
  conductorId : Option Int
  salidaDetalleId : String
  confirm : Bool
  deriving DecidableEq, Repr

/-- The observation POST; the payload's `idSalidasProgramadasDetalle` is
`Number(salidaDetalleId)`, kept here as the raw string. -/
inductive ObsRequest where
  | postObservacion (idConductor : Int) (idSalidasProgramadasDetalle : String)
      (observacion : String) (estadoEntrega : Int)
  deriving DecidableEq, Repr

/-- The `canSubmit` memo:
`Boolean(conductorId && salidaDetalleId && observacion.trim())`. -/
def canSubmit (st : ObsState) (env : ObsEnv) : Bool :=
  jsTruthyOptInt env.conductorId && !(env.salidaDetalleId = "") &&
    !(jsTrim st.observacion = "")

/-- The `onSubmit` form handler of the observation form. -/
def onSubmit (st : ObsState) (env : ObsEnv) : ObsState × List ObsRequest :=
  if !(canSubmit st env) || st.isSubmitting then (st, [])
  else if !env.confirm then (st, [])
  else
    (st, [ObsRequest.postObservacion (env.conductorId.getD 0) env.salidaDetalleId
      (jsTrim st.observacion) (mapEstadoToValue st.estado)])

end Observacion

/-- C6 (amended): the three confirm-gated mutations issue no HTTP request and
leave the component state unchanged when the user declines the dialog — with
the caveat that `guardarProgramacion` has already cleared the
`submitError`/`submitSuccess` banners before prompting. -/
theorem c6_confirm_gating :
    (∀ (st : Observacion.ObsState) (env : Observacion.ObsEnv),
      env.confirm = false → Observacion.onSubmit st env = (st, []))
    ∧ (∀ (st : ProgSalida.ProgState) (env : ProgSalida.ProgEnv) (iv ic ia : Int),
        st.isSubmitting = false → st.fechaEntrega ≠ "" →
        jsSlt st.fechaEntrega env.today = false →
        st.vehiculoId ≠ "" → st.conductorId ≠ "" →
        (ProgSalida.pedidosSeleccionados st).length ≠ 0 →
        (∀ p ∈ ProgSalida.pedidosSeleccionados st,
          optStrTruthy p.ubicacionSeleccionada = true) →
        ProgSalida.coerceStringIdToNumber st.vehiculoId = some iv →
        ProgSalida.coerceStringIdToNumber st.conductorId = some ic →
        env.userId = some ia → env.token = true → env.confirm = false →
        ProgSalida.guardarProgramacion st env =
          ({ st with submitError := none, submitSuccess := none }, []))
    ∧ (∀ (st : Monitoreo.MonState) (p : Monitoreo.ProgramacionItem)
        (respOk : Bool),
        Monitoreo.handleDelete st p false respOk = (st, [])) := by
  refine ⟨?_, ?_, ?_⟩
  · intro st env h
    unfold Observacion.onSubmit
    split
    · rfl
    · rw [if_pos]
      simp [h]
  · intro st env iv ic ia hsub h1 h2 h3 h4 h5 h6 hv hc hu ht hcf
    simp only [ProgSalida.pedidosSeleccionados] at h5 h6
    have h6len : ((st.pedidos.filter fun p => p.seleccionado).filter fun p =>
        !(optStrTruthy p.ubicacionSeleccionada)).length = 0 := by
      have hnil : ((st.pedidos.filter fun p => p.seleccionado).filter fun p =>
          !(optStrTruthy p.ubicacionSeleccionada)) = [] := by
        rw [List.filter_eq_nil_iff]
        intro p hp
        rw [h6 p hp]
        simp
      rw [hnil]
      rfl
    simp [ProgSalida.guardarProgramacion, hsub, h1, h2, h3, h4, h5, h6len,
      hv, hc, hu, ht, hcf]
    intro x hx hft
    by_contra hsel
    have hxsel : x.seleccionado = true := by
      cases hxs : x.seleccionado
      · exact absurd hxs hsel
      · rfl
    have hxf : x ∈ st.pedidos.filter fun p => p.seleccionado := by
      simp [List.mem_filter, hx, hxsel]
    have hcontra := h6 x hxf
    rw [hft] at hcontra
    exact Bool.false_ne_true hcontra
  · intro st p respOk
    simp [Monitoreo.handleDelete]

namespace ProgSalida

/-- The valid submission state carrying a stale success banner. -/
def staleValidState : ProgState :=
  { validState with submitSuccess := some "Programacion registrada correctamente." }

/-- The sample environment with the confirm dialog declined. -/
def declineEnv : ProgEnv := { sampleEnv with confirm := false }

end ProgSalida

/-- C6 (counterexample): declining the programacion confirm dialog issues no
request but does change component state — the previously shown success banner
has been cleared. -/
theorem c6_confirm_gating_counterexample :
    (ProgSalida.guardarProgramacion ProgSalida.staleValidState
        ProgSalida.declineEnv).2 = [] ∧
      ProgSalida.staleValidState.submitSuccess =
        some "Programacion registrada correctamente." ∧
      (ProgSalida.guardarProgramacion ProgSalida.staleValidState
        ProgSalida.declineEnv).1.submitSuccess = none ∧
      (ProgSalida.guardarProgramacion ProgSalida.staleValidState
        ProgSalida.declineEnv).1 ≠ ProgSalida.staleValidState := by
  decide

/-- Witness for C6 at a concrete declined submission of each handler. -/
theorem c6_confirm_gating_witness :
    (Observacion.onSubmit ⟨"obs", .entregado, false⟩ ⟨some 3, "11", false⟩ =
      (⟨"obs", .entregado, false⟩, [])) ∧
    ProgSalida.guardarProgramacion ProgSalida.validState ProgSalida.declineEnv =
      ({ ProgSalida.validState with submitError := none, submitSuccess := none }, []) ∧
    Monitoreo.handleDelete
        ⟨[], none, "", none, none, "2026-10-11"⟩
        ⟨"7", none, some 1, "V", "C", none⟩ false true =
      (⟨[], none, "", none, none, "2026-10-11"⟩, []) :=
  ⟨(c6_confirm_gating).1 ⟨"obs", .entregado, false⟩ ⟨some 3, "11", false⟩ rfl,
    (c6_confirm_gating).2.1 ProgSalida.validState ProgSalida.declineEnv 5 9 1
      rfl (by decide) (by decide) (by decide) (by decide) (by decide)
      (by decide) (by decide) (by decide) rfl rfl rfl,
    (c6_confirm_gating).2.2 ⟨[], none, "", none, none, "2026-10-11"⟩
      ⟨"7", none, some 1, "V", "C", none⟩ true⟩

/-- C10 (amended): in the monitoring panel a delivered programacion
(`estadoEntrega` numerically 2) can never enter edit mode; `handleEditSubmit`
rejects a blank date, or a normalized date lexicographically earlier than
today, without sending any request (a non-blank string that does not start
with `yyyy-MM-dd` is merely trimmed, not rejected); and on a successful
update only the matching items' `fechaEntrega` changes while every other
item, and every other field of the edited item, is unchanged. -/
theorem c10_monitoreo_edit_safety :
    (∀ (st : Monitoreo.MonState) (p : Monitoreo.ProgramacionItem),
      Monitoreo.isEstadoEntregado p.estadoEntrega = true →
      Monitoreo.openEditForm st p = st)
    ∧ (∀ (st : Monitoreo.MonState) (respOk : Bool)
        (editing : Monitoreo.ProgramacionItem),
        st.editingProgramacion = some editing →
        Monitoreo.normalizeIsoDateString st.editFecha = none →
        Monitoreo.handleEditSubmit st respOk =
          ({ st with
              mutationError :=
                some "Selecciona una fecha válida con el formato yyyy-MM-dd." },
            []))
    ∧ (∀ (st : Monitoreo.MonState) (respOk : Bool)
        (editing : Monitoreo.ProgramacionItem) (nd : String),
        st.editingProgramacion = some editing →
        Monitoreo.normalizeIsoDateString st.editFecha = some nd →
        jsSlt nd st.todayIsoDate = true →
        Monitoreo.handleEditSubmit st respOk =
          ({ st with
              mutationError :=
                some "Selecciona una fecha igual o posterior a la fecha actual." },
            []))
    ∧ (∀ (st : Monitoreo.MonState) (editing : Monitoreo.ProgramacionItem)
        (nd : String),
        st.editingProgramacion = some editing →
        Monitoreo.normalizeIsoDateString st.editFecha = some nd →
        jsSlt nd st.todayIsoDate = false →
        Monitoreo.handleEditSubmit st true =
          ({ st with
              items := st.items.map fun item =>
                if item.id = editing.id then { item with fechaEntrega := some nd }
                else item,
              actionStatus := some (true, "Fecha actualizada correctamente."),
              editingProgramacion := none, editFecha := "",
              mutationError := none },
            [Monitoreo.MonRequest.putUpdateFecha editing.id nd]) ∧
        ∀ i (h : i < st.items.length),
          ((Monitoreo.handleEditSubmit st true).1.items)[i]? =
            some (if (st.items.get ⟨i, h⟩).id = editing.id then
              { st.items.get ⟨i, h⟩ with fechaEntrega := some nd }
            else st.items.get ⟨i, h⟩)) := by
  refine ⟨?_, ?_, ?_, ?_⟩
  · intro st p h
    simp [Monitoreo.openEditForm, h]
  · intro st respOk editing hed hnorm
    simp [Monitoreo.handleEditSubmit, hed, hnorm]
  · intro st respOk editing nd hed hnorm hlt
    simp [Monitoreo.handleEditSubmit, hed, hnorm, hlt]
  · intro st editing nd hed hnorm hlt
    have heq : Monitoreo.handleEditSubmit st true =
        ({ st with
            items := st.items.map fun item =>
              if item.id = editing.id then { item with fechaEntrega := some nd }
              else item,
            actionStatus := some (true, "Fecha actualizada correctamente."),
            editingProgramacion := none, editFecha := "",
            mutationError := none },
          [Monitoreo.MonRequest.putUpdateFecha editing.id nd]) := by
      simp [Monitoreo.handleEditSubmit, hed, hnorm, hlt]
    refine ⟨heq, ?_⟩
    intro i h
    rw [heq]
    have hmap : i < (st.items.map fun item =>
        if item.id = editing.id then { item with fechaEntrega := some nd }
        else item).length := by
      simpa using h
    rw [List.getElem?_eq_getElem hmap]
    simp [List.get_eq_getElem]

namespace Monitoreo

/-- A monitoring row still in process. -/
def enProcesoItem : ProgramacionItem := ⟨"7", some "2026-10-01", some 1, "V", "C", none⟩

/-- A monitoring state editing that row with a garbage date input. -/
def garbageDateState : MonState :=
  { items := [enProcesoItem], editingProgramacion := some enProcesoItem,
    editFecha := "zzzz", mutationError := none, actionStatus := none,
    todayIsoDate := "2026-10-11" }

end Monitoreo

/-- C10 (counterexample): an invalid date is not rejected: with the edit form
open and the date input `"zzzz"` (no `yyyy-MM-dd` prefix, lexicographically
after today), `handleEditSubmit` sends the PUT with the garbage date instead
of rejecting it. -/
theorem c10_monitoreo_edit_safety_counterexample :
    Monitoreo.isIsoPrefix (jsTrim Monitoreo.garbageDateState.editFecha).data = false ∧
      (Monitoreo.handleEditSubmit Monitoreo.garbageDateState true).2 =
        [Monitoreo.MonRequest.putUpdateFecha "7" "zzzz"] := by
  decide

/-- Witness for C10: a delivered row cannot enter edit mode, and a blank date
is rejected without a request. -/
theorem c10_monitoreo_edit_safety_witness :
    (Monitoreo.isEstadoEntregado (some 2) = true ∧
      Monitoreo.openEditForm Monitoreo.garbageDateState
        ⟨"9", none, some 2, "V", "C", none⟩ = Monitoreo.garbageDateState) ∧
    (Monitoreo.normalizeIsoDateString "  " = none ∧
      Monitoreo.handleEditSubmit
          { Monitoreo.garbageDateState with editFecha := "  " } true =
        ({ Monitoreo.garbageDateState with
            editFecha := "  ",
            mutationError :=
              some "Selecciona una fecha válida con el formato yyyy-MM-dd." },
          [])) :=
  ⟨⟨by decide,
    (c10_monitoreo_edit_safety).1 Monitoreo.garbageDateState
      ⟨"9", none, some 2, "V", "C", none⟩ (by decide)⟩,
   ⟨by decide,
    (c10_monitoreo_edit_safety).2.1
      { Monitoreo.garbageDateState with editFecha := "  " } true
      Monitoreo.enProcesoItem rfl (by decide)⟩⟩
